import Mathlib

/-!
# RFID reader discovery and connection manager

A shallow embedding of `addons/non_stop_parking/static/src/js/rfid_reader.js`
(class `RFIDReaderWidget`).  The widget's mutable fields, the `localStorage`
entry, the notification sink and the outgoing requests are fields of an explicit
`Widget` value that every operation takes and returns.  The replies of the reader
service, of the registry and the clock are the fields of an `Env`.

Conventions for JavaScript values:
* a string field that is `undefined` or empty is falsy; fields that the source
  tests for truthiness are strings here, with `""` standing for the falsy value,
  or `Option String` where the source really leaves the field out;
* `null` results are `none`;
* `localStorage` is a one-key store holding a parsed record (`JSON.stringify`
  followed by `JSON.parse` is the identity on the record); whether `setItem` throws
  is decided by the environment;
* an `async` method that other operations can overtake is split at its `await`s:
  `setup()` starts the auto-connect without awaiting it, so the auto-connect is a
  resumable computation (`AutoConnect`), and `startup` is the run in which nothing
  overtakes it.
-/

namespace RFIDReader

/-! ## JavaScript helpers -/

/-- Truthiness of a string: only the empty string is falsy. -/
def truthy (s : String) : Bool := s != ""

/-- Truthiness of a possibly missing string. -/
def truthyOpt : Option String → Bool
  | some s => truthy s
  | none => false

/-- The expression `a || b` on possibly missing strings. -/
def jsOr (a b : Option String) : Option String :=
  if truthyOpt a then a else b

/-- The expression `a || "literal"`. -/
def jsOrStr (a : Option String) (b : String) : String :=
  match a with
  | some s => if truthy s then s else b
  | none => b

/-- Rendering of a possibly missing string inside a template literal. -/
def jsStr : Option String → String
  | some s => s
  | none => "undefined"

/-- A thrown JavaScript error: its `name` and its `message`. -/
structure JsError where
  name : String
  message : String
deriving DecidableEq, Repr

/-- The error built by `new Error(message)`. -/
def mkError (message : String) : JsError := ⟨"Error", message⟩

/-! ## Replies of the reader service and of the registry -/

/-- Outcome of a `fetch` followed by `response.json()`: the fetch rejects
(network failure, abort by the timeout signal), or it yields a response with its
`ok` flag whose body parses to `β` or fails to parse. -/
inductive Fetch (β : Type) where
  | failure (e : JsError)
  | response (ok : Bool) (json : Except JsError β)

/-- Body `{Success, Message?}` of Discover, SetDevice and TestDevice. -/
structure StatusBody where
  Success : Bool
  Message : Option String
deriving DecidableEq, Repr

/-- One entry of the `Data` array of GetDevices. -/
structure DeviceRecord where
  DeviceId : String
  ComPort : String
  DeviceName : String
deriving DecidableEq, Repr

/-- Body of GetDevices; `Data = none` when `Data` is not an array. -/
structure DevicesBody where
  Success : Bool
  Data : Option (List DeviceRecord)
deriving DecidableEq, Repr

/-- One entry of the `Data` array of read. -/
structure TagEntry where
  UID : String
deriving DecidableEq, Repr

/-- Body of read; `Data = none` when `Data` is not an array. -/
structure ReadBody where
  Success : Bool
  Data : Option (List TagEntry)
  Message : Option String
deriving DecidableEq, Repr

/-- Everything outside the widget: the clock reading used for `new Date()`, the
reader service's reply to each request, the registry's reply to the count query
and whether `localStorage.setItem` throws (quota exceeded, storage blocked).
`discoverStalls port` says that the probe of `port` does not settle before the
task runner's 3000 ms ceiling. -/
structure Env where
  now : Nat
  setItemThrows : Bool
  discover : String → Nat → Fetch StatusBody
  discoverStalls : Nat → Bool
  getDevices : String → Nat → Fetch DevicesBody
  setDevice : String → Nat → String → Fetch StatusBody
  testDeviceReply : String → Nat → String → Fetch StatusBody
  read : String → Nat → Fetch ReadBody
  searchCount : String → Except JsError Int

/-! ## Data model -/

/-- Element of the list returned by `_getReaderList`. -/
structure Reader where
  readerId : String
  comPort : String
  readerName : Option String
deriving DecidableEq, Repr

/-- Device object handed to `selectDevice`, `testDevice`; built by
`discoverDevices`. -/
structure Device where
  readerId : String
  comPort : String
  readerName : Option String
  host : String
  port : Nat
  isRegisteredInSystem : Bool
deriving DecidableEq, Repr

/-- The object stored in `state.readerInfo`. -/
structure ReaderInfo where
  readerId : String
  comPort : String
  host : String
  port : Nat
  status : Option String
  readerName : Option String
deriving DecidableEq, Repr

/-- The record kept in `localStorage` under `STORAGE_KEY`. -/
structure DeviceData where
  host : String
  port : Nat
  readerId : String
  comPort : String
  readerName : Option String
  lastConnected : Nat
deriving DecidableEq, Repr

/-- Values of `state.connectionStatus`. -/
inductive ConnectionStatus where
  | disconnected
  | connecting
  | connected
deriving DecidableEq, Repr

/-- The reactive `state` object of the widget. -/
structure State where
  isConnected : Bool
  connectionStatus : ConnectionStatus
  readerInfo : Option ReaderInfo
  isScanning : Bool
  showDeviceModal : Bool
  availableDevices : List Device
  isDiscovering : Bool
  testingDevice : Option String
  showConfigModal : Bool
  configDevice : Option Device
deriving DecidableEq, Repr

/-- A call of `notification.add(message, options)`. -/
structure Notification where
  message : String
  type : String
  sticky : Bool
deriving DecidableEq, Repr

/-- An outgoing request. -/
inductive Request where
  | discover (host : String) (port : Nat)
  | getDevices (host : String) (port : Nat)
  | setDevice (host : String) (port : Nat) (comPort : String)
  | testDevice (host : String) (port : Nat) (comPort : String)
  | read (host : String) (port : Nat)
  | searchCount (readerId : String)
deriving DecidableEq, Repr

/-- The widget together with its collaborators' observable state: the flags, the
reactive state, the `localStorage` entry, the notifications emitted so far and
the requests issued so far (both oldest first). -/
structure Widget where
  state : State
  isAutoConnecting : Bool
  isDestroyed : Bool
  storage : Option DeviceData
  notifications : List Notification
  requests : List Request
deriving DecidableEq, Repr

/-! ## Constants of `setup` -/

def API_TIMEOUT : Nat := 5000

def DISCOVERY_TIMEOUT : Nat := 100

def CONCURRENCY_LIMIT : Nat := 25

def PORT_RANGE_start : Nat := 10000

def PORT_RANGE_end : Nat := 11000

def LOCALHOST : String := "127.0.0.1"

/-- The `useState` object created by `setup`. -/
def initialState : State :=
  { isConnected := false
    connectionStatus := .disconnected
    readerInfo := none
    isScanning := false
    showDeviceModal := false
    availableDevices := []
    isDiscovering := false
    testingDevice := none
    showConfigModal := false
    configDevice := none }

/-- The widget as `setup` builds it before it starts the auto-connect, over a
given content of `localStorage`. -/
def initialWidget (storage : Option DeviceData) : Widget :=
  { state := initialState
    isAutoConnecting := false
    isDestroyed := false
    storage := storage
    notifications := []
    requests := [] }

/-! ## Utility methods -/

/-- `_showNotification(message, type = "info", sticky = false)`. -/
def _showNotification (message : String) (type : String) (sticky : Bool) (w : Widget) : Widget :=
  { w with notifications := w.notifications ++ [⟨message, type, sticky⟩] }

/-- Record an outgoing request. -/
def logRequest (r : Request) (w : Widget) : Widget :=
  { w with requests := w.requests ++ [r] }

/-- Assignment to `state.connectionStatus`. -/
def setStatus (c : ConnectionStatus) (w : Widget) : Widget :=
  { w with state := { w.state with connectionStatus := c } }

/-! ## Storage management -/

/-- `_saveDeviceToStorage(readerInfo)`: incomplete device info is not saved; when
`localStorage.setItem` throws, the error is caught and the store is left as it
was. -/
def _saveDeviceToStorage (env : Env) (readerInfo : Option ReaderInfo) (w : Widget) : Widget :=
  match readerInfo with
  | none => w
  | some ri =>
    if !truthy ri.readerId || !truthy ri.comPort then w
    else
      let deviceData : DeviceData :=
        { host := ri.host
          port := ri.port
          readerId := ri.readerId
          comPort := ri.comPort
          readerName := ri.readerName
          lastConnected := env.now }
      if env.setItemThrows then w
      else { w with storage := some deviceData }

/-- `_getDeviceFromStorage()`. -/
def _getDeviceFromStorage (w : Widget) : Option DeviceData := w.storage

/-- `_removeDeviceFromStorage()`. -/
def _removeDeviceFromStorage (w : Widget) : Widget :=
  { w with storage := none }

/-! ## API communication -/

/-- The value `_callDiscoveryAPI` computes from the reply to the Discover request. -/
def discoverReplyOk : Fetch StatusBody → Bool
  | .failure _ => false
  | .response ok json =>
    if ok then
      match json with
      | .error _ => false
      | .ok data => data.Success && (data.Message == some "DISCOVER SERVICE SUCCESSFULLY")
    else false

/-- `_callDiscoveryAPI(host, port)`: the Discover request goes to the host and port
it is given. -/
def _callDiscoveryAPI (env : Env) (host : String) (port : Nat) (w : Widget) : Bool × Widget :=
  (discoverReplyOk (env.discover host port), logRequest (.discover host port) w)

/-- The list `_getReaderList` computes from the reply to GetDevices. -/
def readerListOf : Fetch DevicesBody → List Reader
  | .failure _ => []
  | .response ok json =>
    if ok then
      match json with
      | .error _ => []
      | .ok data =>
        match data.Success, data.Data with
        | true, some ds =>
          ds.map fun d => { readerId := d.DeviceId, comPort := d.ComPort, readerName := some d.DeviceName }
        | _, _ => []
    else []

/-- `_getReaderList(host, port)`. -/
def _getReaderList (env : Env) (host : String) (port : Nat) (w : Widget) : List Reader × Widget :=
  (readerListOf (env.getDevices host port), logRequest (.getDevices host port) w)

/-- The outcome of `_setDevice` for a given reply: it throws unless the body
parses and reports `Success`. -/
def setDeviceOutcome : Fetch StatusBody → Except JsError Unit
  | .failure e => .error e
  | .response _ (.error e) => .error e
  | .response _ (.ok data) =>
    if !data.Success then .error (mkError (jsOrStr data.Message "Không thể chọn thiết bị"))
    else .ok ()

/-- `_setDevice(host, port, comPort)`. -/
def _setDevice (env : Env) (host : String) (port : Nat) (comPort : String) (w : Widget) :
    Except JsError Unit × Widget :=
  (setDeviceOutcome (env.setDevice host port comPort), logRequest (.setDevice host port comPort) w)

/-- The value `_validateReaderInSystem` computes from the registry's reply to the
count query: `result > 0`, and `false` when the query throws. -/
def readerInSystem (env : Env) (readerId : String) : Bool :=
  match env.searchCount readerId with
  | .ok result => decide (result > 0)
  | .error _ => false

/-- `_validateReaderInSystem(readerId)`. -/
def _validateReaderInSystem (env : Env) (readerId : String) (w : Widget) : Bool × Widget :=
  (readerInSystem env readerId, logRequest (.searchCount readerId) w)

/-- `_validateSavedDevice(deviceInfo)`. -/
def _validateSavedDevice (env : Env) (deviceInfo : DeviceData) (w : Widget) : Option Reader × Widget :=
  let (readers, w) := _getReaderList env deviceInfo.host deviceInfo.port w
  (readers.find? fun r => r.readerId == deviceInfo.readerId && r.comPort == deviceInfo.comPort, w)

/-! ## Connection management -/

/-- `_connectToValidatedDevice(validatedDevice, savedDevice)`.  The readers
returned by `_getReaderList` carry no `status`, so `status` is `"active"`. -/
def _connectToValidatedDevice (env : Env) (validatedDevice : Reader) (savedDevice : DeviceData)
    (w : Widget) : Widget :=
  let readerInfo : ReaderInfo :=
    { readerId := validatedDevice.readerId
      comPort := validatedDevice.comPort
      host := savedDevice.host
      port := savedDevice.port
      status := some "active"
      readerName := jsOr validatedDevice.readerName savedDevice.readerName }
  let w := { w with state := { w.state with readerInfo := some readerInfo } }
  let w := { w with state := { w.state with isConnected := true } }
  let w := setStatus .connected w
  _saveDeviceToStorage env w.state.readerInfo w

/-- Where a started `_autoConnectSavedDevice()` call stands: it has returned, or it
is suspended at the `await` of `_validateSavedDevice` or at the `await` of
`_validateReaderInSystem`, waiting for the reply. -/
inductive AutoConnect where
  | finished
  | awaitingReaderList (savedDevice : DeviceData)
  | awaitingRegistry (validatedDevice : Reader) (savedDevice : DeviceData)
deriving DecidableEq, Repr

/-- `_autoConnectSavedDevice()` from its call to its first `await`, or to its return
when there is nothing to do (the `finally` arm then clears the flag). -/
def _autoConnectSavedDevice (w : Widget) : Widget × AutoConnect :=
  if w.isAutoConnecting || w.isDestroyed then (w, .finished)
  else
    let w := { w with isAutoConnecting := true }
    match _getDeviceFromStorage w with
    | none => ({ w with isAutoConnecting := false }, .finished)
    | some savedDevice =>
      let w := setStatus .connecting w
      (w, .awaitingReaderList savedDevice)

/-- The continuation of `_autoConnectSavedDevice()` when the reply it waits for
arrives: the awaited call is evaluated against that reply and the function runs on to
its next `await` or to its return.  Every callee catches its own errors, so the
`catch` arm of the source cannot be entered; the `finally` arm clears the flag.  The
`await` of `_connectToValidatedDevice`, which itself awaits nothing, only delays the
`finally` arm, whose flag no operation reads. -/
def autoConnectResume (env : Env) (pending : AutoConnect) (w : Widget) : Widget × AutoConnect :=
  match pending with
  | .finished => (w, .finished)
  | .awaitingReaderList savedDevice =>
    let (validatedDevice, w) := _validateSavedDevice env savedDevice w
    match validatedDevice with
    | none =>
      let w := _removeDeviceFromStorage w
      let w := setStatus .disconnected w
      let w :=
        _showNotification "Thiết bị đã lưu không khả dụng. Vui lòng kết nối lại." "warning" false w
      ({ w with isAutoConnecting := false }, .finished)
    | some validatedDevice => (w, .awaitingRegistry validatedDevice savedDevice)
  | .awaitingRegistry validatedDevice savedDevice =>
    let (isValidReader, w) := _validateReaderInSystem env validatedDevice.readerId w
    let w :=
      if !isValidReader then
        let w := _removeDeviceFromStorage w
        let w := setStatus .disconnected w
        _showNotification
          ("Thiết bị " ++ validatedDevice.readerId ++
            " chưa được đăng ký trong hệ thống. Hãy liên hệ chúng tôi để được hỗ trợ.")
          "warning" true w
      else _connectToValidatedDevice env validatedDevice savedDevice w
    ({ w with isAutoConnecting := false }, .finished)

/-- What `setup()` leaves behind over a given content of `localStorage`: the widget,
and the auto-connect it started without awaiting it. -/
def setup (storage : Option DeviceData) : Widget × AutoConnect :=
  _autoConnectSavedDevice (initialWidget storage)

/-- The widget once the auto-connect started by `setup()` has run to its end with no
other operation in between: both replies it waits for are taken from `env`. -/
def startup (env : Env) (storage : Option DeviceData) : Widget :=
  let s0 := setup storage
  let s1 := autoConnectResume env s0.2 s0.1
  (autoConnectResume env s1.2 s1.1).1

/-- `closeDeviceModal()`. -/
def closeDeviceModal (w : Widget) : Widget :=
  { w with state :=
      { w.state with showDeviceModal := false, availableDevices := [], testingDevice := none } }

/-- `disconnectFromReader()`. -/
def disconnectFromReader (w : Widget) : Widget :=
  let readerName :=
    match w.state.readerInfo with
    | some ri => if truthy ri.readerId then ri.readerId else "Unknown"
    | none => "Unknown"
  let w := { w with state := { w.state with isConnected := false } }
  let w := { w with state := { w.state with readerInfo := none } }
  let w := setStatus .disconnected w
  let w := { w with state := { w.state with isScanning := false } }
  let w := _removeDeviceFromStorage w
  _showNotification ("Đã ngắt kết nối với Reader " ++ readerName) "info" false w

/-- `_isCurrentDevice(device)`. -/
def _isCurrentDevice (w : Widget) (device : Device) : Bool :=
  match w.state.readerInfo with
  | none => false
  | some ri => ri.readerId == device.readerId && ri.comPort == device.comPort

/-- `_connectToDevice(device)`. -/
def _connectToDevice (env : Env) (device : Device) (w : Widget) : Widget :=
  let readerInfo : ReaderInfo :=
    { readerId := device.readerId
      comPort := device.comPort
      host := device.host
      port := device.port
      status := none
      readerName := device.readerName }
  let w := { w with state := { w.state with readerInfo := some readerInfo } }
  let w := { w with state := { w.state with isConnected := true } }
  let w := setStatus .connected w
  let w := _saveDeviceToStorage env w.state.readerInfo w
  _showNotification
    ("Kết nối thành công với Reader " ++ jsStr device.readerName ++ " - " ++ device.readerId ++
      " (" ++ device.comPort ++ ") tại " ++ device.host ++ ":" ++ toString device.port)
    "success" false w

/-- `selectDevice(device)`. -/
def selectDevice (env : Env) (device : Device) (w : Widget) : Widget :=
  if !device.isRegisteredInSystem then
    { w with notifications := w.notifications ++
        [⟨"Reader ID " ++ device.readerId ++
            " chưa được đăng ký trong hệ thống. Không thể kết nối.", "warning", false⟩] }
  else if _isCurrentDevice w device then
    let w := _showNotification
      ("Thiết bị " ++ jsStr device.readerName ++ " (" ++ device.comPort ++ ") đã được kết nối.")
      "info" false w
    closeDeviceModal w
  else
    let w := if w.state.isConnected then disconnectFromReader w else w
    let w := setStatus .connecting w
    match _setDevice env device.host device.port device.comPort w with
    | (.ok _, w) =>
      let w := _connectToDevice env device w
      closeDeviceModal w
    | (.error error, w) =>
      let w := setStatus .disconnected w
      _showNotification ("Lỗi kết nối: " ++ error.message) "danger" false w

/-- The outcome of the `try` block of `testDevice` for a given reply. -/
def testDeviceOutcome : Fetch StatusBody → Except JsError Unit
  | .failure e => .error e
  | .response _ (.error e) => .error e
  | .response _ (.ok data) =>
    if data.Success then .ok ()
    else .error (mkError (jsOrStr data.Message "Test thất bại"))

/-- `testDevice(device)`. -/
def testDevice (env : Env) (device : Device) (w : Widget) : Widget :=
  let w := { w with state := { w.state with testingDevice := some device.readerId } }
  let w := logRequest (.testDevice device.host device.port device.comPort) w
  let w :=
    match testDeviceOutcome (env.testDeviceReply device.host device.port device.comPort) with
    | .ok _ =>
      _showNotification
        ("Test thành công cho " ++ device.readerId ++ " (" ++ device.comPort ++ ").")
        "success" false w
    | .error error =>
      _showNotification
        ("Test thất bại cho " ++ device.readerId ++ ": " ++ error.message) "warning" false w
  { w with state := { w.state with testingDevice := none } }

/-! ## Tag scanning -/

/-- `_handleScanError(error)`. -/
def _handleScanError (error : JsError) (w : Widget) : Widget :=
  let message := "Lỗi khi lấy thẻ: " ++ error.message
  let type := "danger"
  let (message, type) :=
    if error.name == "AbortError" then ("Timeout khi lấy thẻ", "warning")
    else if error.name == "TypeError" then ("Lỗi kết nối mạng", type)
    else (message, type)
  _showNotification message type false w

/-- `getTags()`: the returned tag identifier (`none` for `null`) and the widget
afterwards. -/
def getTags (env : Env) (w : Widget) : Option String × Widget :=
  match w.state.isConnected, w.state.readerInfo with
  | true, some readerInfo =>
    let w := { w with state := { w.state with isScanning := true } }
    let w := logRequest (.read readerInfo.host readerInfo.port) w
    let (result, w) :=
      match env.read readerInfo.host readerInfo.port with
      | .failure error => (none, _handleScanError error w)
      | .response _ (.error error) => (none, _handleScanError error w)
      | .response _ (.ok data) =>
        if !data.Success then
          (none, _handleScanError (mkError (jsOrStr data.Message "Lỗi không xác định")) w)
        else if data.Data.isSome && decide ((data.Data.getD []).length ≥ 2) then
          (none, _showNotification
            "Phát hiện 2 thẻ cùng lúc. Vui lòng chỉ quét một thẻ tại một thời điểm."
            "warning" false w)
        else if data.Data.isSome && decide ((data.Data.getD []).length > 0) then
          ((data.Data.getD []).head?.map TagEntry.UID, w)
        else
          (none, _showNotification "Không phát hiện thẻ nào" "info" false w)
    (result, { w with state := { w.state with isScanning := false } })
  | _, _ =>
    (none, _showNotification "Chưa kết nối với Reader Service" "warning" false w)

/-! ## Sequences of operations -/

/-- The public operations on the connection session. -/
inductive Op where
  | selectDevice (device : Device)
  | disconnectFromReader
  | getTags
  | testDevice (device : Device)

/-- The widget after one completed operation. -/
def Op.run (env : Env) : Op → Widget → Widget
  | .selectDevice device, w => RFIDReader.selectDevice env device w
  | .disconnectFromReader, w => RFIDReader.disconnectFromReader w
  | .getTags, w => (RFIDReader.getTags env w).2
  | .testDevice device, w => RFIDReader.testDevice env device w

/-- The widgets the program reaches, with the state of the auto-connect that
`setup()` started: at any point a completed operation may follow, or the pending
auto-connect may resume on the reply it waits for; each step has replies of its
own. -/
inductive Reachable : Widget → AutoConnect → Prop where
  | setup (storage : Option DeviceData) : Reachable (setup storage).1 (setup storage).2
  | resume (env : Env) (w : Widget) (pending : AutoConnect) :
    Reachable w pending →
      Reachable (autoConnectResume env pending w).1 (autoConnectResume env pending w).2
  | step (env : Env) (op : Op) (w : Widget) (pending : AutoConnect) :
    Reachable w pending → Reachable (op.run env w) pending

/-- The widgets reached when nothing overlaps: the auto-connect started by `setup()`
runs to its end first, and completed operations follow one after the other. -/
inductive ReachableInOrder : Widget → Prop where
  | startup (env : Env) (storage : Option DeviceData) : ReachableInOrder (startup env storage)
  | step (env : Env) (op : Op) (w : Widget) :
    ReachableInOrder w → ReachableInOrder (op.run env w)

/-- The stored `(readerId, comPort)` pair occurs in a list of readers. -/
def pairListed (readers : List Reader) (saved : DeviceData) : Prop :=
  ∃ r ∈ readers, r.readerId = saved.readerId ∧ r.comPort = saved.comPort

/-- The session invariant: `isConnected` holds exactly when the status is
`connected`, and exactly when `readerInfo` is present. -/
def SessionInv (w : Widget) : Prop :=
  (w.state.isConnected = true ↔ w.state.connectionStatus = .connected) ∧
  (w.state.isConnected = true ↔ w.state.readerInfo.isSome = true)

/-- The part of the session invariant that every write keeps: `isConnected` holds
exactly when `readerInfo` is present, and the status `connected` implies
`isConnected`. -/
def ConnInv (w : Widget) : Prop :=
  (w.state.isConnected = true ↔ w.state.readerInfo.isSome = true) ∧
  (w.state.connectionStatus = .connected → w.state.isConnected = true)

/-! ## The bounded task runner -/

/-- What a task function does when it is called: it returns a promise that
resolves with `v` (`none` for `null`) before the runner's 3000 ms timer fires, a
promise that rejects before the timer fires, it throws synchronously, or its
promise is still pending when the timer fires. -/
inductive TaskOutcome (α : Type) where
  | resolved (v : Option α)
  | rejected (e : JsError)
  | threw (e : JsError)
  | stalled
deriving DecidableEq, Repr

/-- A slot of a JavaScript array: never assigned, or holding a value. -/
inductive Slot (β : Type) where
  | hole
  | filled (v : β)
deriving DecidableEq, Repr

/-- The assignment `a[i] = v` on a JavaScript array: an index past the end extends
the array, leaving holes in between. -/
def arraySet {β : Type} (a : List (Slot β)) (i : Nat) (v : β) : List (Slot β) :=
  if i < a.length then a.set i (.filled v)
  else a ++ List.replicate (i - a.length) .hole ++ [.filled v]

/-- The value of `await Promise.race([task(), timer])`: the task's value, or the
error thrown at the `await`. -/
def awaitRace {α : Type} : TaskOutcome α → Except JsError (Option α)
  | .resolved v => .ok v
  | .rejected e => .error e
  | .threw e => .error e
  | .stalled => .error (mkError "Task timeout")

/-- The value the `try`/`catch` of a worker stores for a task: the awaited value,
or `null` when the `await` throws. -/
def settle {α : Type} (t : TaskOutcome α) : Option α :=
  match awaitRace t with
  | .ok v => v
  | .error _ => none

/-- The variables shared by the workers of one `_runWithConcurrencyLimit` call: the
counter `i`, the `results` array, the indexes of the task functions called so far
(oldest first) and, for each worker suspended at its `await`, the index of the task
it waits for. -/
structure RunState (α : Type) where
  i : Nat
  results : List (Slot (Option α))
  invoked : List Nat
  awaiting : List Nat
deriving DecidableEq, Repr

/-- The closure `run` from the top of its `while` loop up to its next `await` or to
its return: it claims the next index and calls that task; a task that throws
synchronously is caught at once and the loop goes on; otherwise the worker suspends.
The first argument bounds the number of iterations. -/
def run {α : Type} (taskFns : List (TaskOutcome α)) : Nat → RunState α → RunState α
  | 0, s => s
  | fuel + 1, s =>
    if s.i < taskFns.length then
      let current := s.i
      let s := { s with i := s.i + 1, invoked := s.invoked ++ [current] }
      match taskFns.getD current .stalled with
      | .threw _ => run taskFns fuel { s with results := arraySet s.results current none }
      | _ => { s with awaiting := s.awaiting ++ [current] }
    else s

/-- One completion: the race awaited by the `k`-th suspended worker (counted
cyclically) settles; the worker stores the value, or `null`, at its own index and
continues its loop. -/
def complete {α : Type} (taskFns : List (TaskOutcome α)) (k : Nat) (s : RunState α) :
    RunState α :=
  match s.awaiting[k % s.awaiting.length]? with
  | none => s
  | some current =>
    let s :=
      { s with
        awaiting := s.awaiting.erase current
        results := arraySet s.results current (settle (taskFns.getD current .stalled)) }
    run taskFns (taskFns.length + 1) s

/-- The workers created by `Array.from({ length: Math.min(limit, n) }, run)`: each
call of `run` proceeds to its first `await` before the next worker is created. -/
def startWorkers {α : Type} (taskFns : List (TaskOutcome α)) (limit : Nat) : RunState α :=
  (run taskFns (taskFns.length + 1))^[min limit taskFns.length]
    { i := 0, results := [], invoked := [], awaiting := [] }

/-- The event loop until no worker is suspended: `sched` picks which suspended
worker's race settles next.  The first argument bounds the number of completions. -/
def drain {α : Type} (taskFns : List (TaskOutcome α)) : Nat → List Nat → RunState α → RunState α
  | 0, _, s => s
  | fuel + 1, sched, s =>
    if s.awaiting.isEmpty then s
    else drain taskFns fuel sched.tail (complete taskFns (sched.headD 0) s)

/-- The shared variables when `Promise.all(workers)` is awaited, after at most one
completion per task. -/
def runWorkers {α : Type} (taskFns : List (TaskOutcome α)) (limit : Nat) (sched : List Nat) :
    RunState α :=
  drain taskFns taskFns.length sched (startWorkers taskFns limit)

/-- `_runWithConcurrencyLimit(taskFns, limit)` under the completion order `sched`:
the `results` array once every worker has returned, `none` if a worker were still
suspended. -/
def _runWithConcurrencyLimit {α : Type} (taskFns : List (TaskOutcome α)) (limit : Nat)
    (sched : List Nat) : Option (List (Slot (Option α))) :=
  let s := runWorkers taskFns limit sched
  if s.awaiting.isEmpty then some s.results else none

/-- A call `_runWithConcurrencyLimit(taskFns, limit)` with what it did: the shared
variables once `Array.from` has created the workers, the shared variables when
`Promise.all(workers)` resolves, and the value returned. -/
structure RunnerCall (α : Type) where
  workers : RunState α
  final : RunState α
  returned : Option (List (Slot (Option α)))

/-- The call `_runWithConcurrencyLimit(taskFns, limit)` under the completion order
`sched`. -/
def callRunner {α : Type} (taskFns : List (TaskOutcome α)) (limit : Nat) (sched : List Nat) :
    RunnerCall α :=
  { workers := startWorkers taskFns limit
    final := runWorkers taskFns limit sched
    returned := _runWithConcurrencyLimit taskFns limit sched }

/-- For task functions that act on a state when they are called: what the promise
of each does.  The outcome of a promise is decided by the replies it receives, so it
is read off a call on any state. -/
def outcomesOf {σ α : Type} (taskFns : List (σ → TaskOutcome α × σ)) (s : σ) :
    List (TaskOutcome α) :=
  taskFns.map fun task => (task s).1

/-- The effects on the state of the calls of the task functions, in the order in
which the runner called them. -/
def callEffects {σ α : Type} (taskFns : List (σ → TaskOutcome α × σ)) (invoked : List Nat)
    (s : σ) : σ :=
  invoked.foldl
    (fun s k =>
      match taskFns[k]? with
      | some task => (task s).2
      | none => s)
    s

/-- The invariant of the shared variables of the task runner: the tasks called are
exactly those below the counter, in order; every suspended worker waits for a
distinct task already called; the slot of a task holds its settled value as soon
as the task was called and is no longer awaited, and is a hole before. -/
structure RunInv {α : Type} (taskFns : List (TaskOutcome α)) (s : RunState α) : Prop where
  i_le : s.i ≤ taskFns.length
  invoked_eq : s.invoked = List.range s.i
  nodup : s.awaiting.Nodup
  await_lt : ∀ c ∈ s.awaiting, c < s.i
  len_le : s.results.length ≤ s.i
  slot : ∀ j, s.results.getD j .hole =
    if j < s.i ∧ j ∉ s.awaiting then .filled (settle (taskFns.getD j .stalled)) else .hole

/-- The number of tasks not yet called plus the number of suspended workers. -/
def pendingWork {α : Type} (taskFns : List (TaskOutcome α)) (s : RunState α) : Nat :=
  (taskFns.length - s.i) + s.awaiting.length

/-! ## Device discovery -/

/-- The `{ host, port }` object a successful probe resolves with. -/
structure Endpoint where
  host : String
  port : Nat
deriving DecidableEq, Repr

/-- The ports visited by the `for` loop of `discoverDevices`, from
`PORT_RANGE.start` up to and including `PORT_RANGE.end`. -/
def portRange : List Nat :=
  List.range' PORT_RANGE_start (PORT_RANGE_end + 1 - PORT_RANGE_start)

/-- The task function pushed for `currentPort`: called, it calls
`_callDiscoveryAPI(this.LOCALHOST, currentPort)`; its promise resolves with the
endpoint when the answer is true and with `null` otherwise. -/
def discoveryTask (env : Env) (currentPort : Nat) (w : Widget) : TaskOutcome Endpoint × Widget :=
  let (discoveryResult, w) := _callDiscoveryAPI env LOCALHOST currentPort w
  (if env.discoverStalls currentPort then .stalled
   else .resolved (if discoveryResult then some ⟨LOCALHOST, currentPort⟩ else none), w)

/-- The array `taskFns` built by `discoverDevices`. -/
def discoveryTasks (env : Env) : List (Widget → TaskOutcome Endpoint × Widget) :=
  portRange.map (discoveryTask env)

/-- The filter `result !== null` on the results array (holes are skipped). -/
def validPortsOf (discoveryResults : List (Slot (Option Endpoint))) : List Endpoint :=
  discoveryResults.filterMap fun
    | .filled (some portInfo) => some portInfo
    | _ => none

/-- The body of the inner loop of `discoverDevices` for one reader. -/
def pushReader (env : Env) (portInfo : Endpoint) (acc : List Device × Widget)
    (reader : Reader) : List Device × Widget :=
  let (isValidReader, w) := _validateReaderInSystem env reader.readerId acc.2
  (acc.1 ++
    [{ readerId := reader.readerId
       comPort := reader.comPort
       readerName := none
       host := portInfo.host
       port := portInfo.port
       isRegisteredInSystem := isValidReader }], w)

/-- The body of the outer loop of `discoverDevices` for one responding port. -/
def pushPort (env : Env) (acc : List Device × Widget) (portInfo : Endpoint) :
    List Device × Widget :=
  let (readerList, w) := _getReaderList env portInfo.host portInfo.port acc.2
  readerList.foldl (pushReader env portInfo) (acc.1, w)

/-- `discoverDevices()` under the completion order `sched` of the probes, with its
call of the task runner made visible: the devices returned, the widget afterwards
and the runner call; `none` if the task runner did not return. -/
def discoverDevicesRun (env : Env) (sched : List Nat) (w : Widget) :
    Option (List Device × Widget × RunnerCall Endpoint) :=
  let taskFns := discoveryTasks env
  let call := callRunner (outcomesOf taskFns w) CONCURRENCY_LIMIT sched
  let w := callEffects taskFns call.final.invoked w
  match call.returned with
  | none => none
  | some discoveryResults =>
    let validPorts := validPortsOf discoveryResults
    let found := validPorts.foldl (pushPort env) ([], w)
    some (found.1, found.2, call)

/-- `discoverDevices()` under the completion order `sched` of the probes: the
devices returned and the widget afterwards; `none` if the task runner did not
return. -/
def discoverDevices (env : Env) (sched : List Nat) (w : Widget) : Option (List Device × Widget) :=
  (discoverDevicesRun env sched w).map fun r => (r.1, r.2.1)

/-- The discovery probe of `port` succeeded: it settled in time and the service
answered the Discover request with an OK response, a success flag and the expected
message. -/
def probeSucceeded (env : Env) (port : Nat) : Bool :=
  !env.discoverStalls port && discoverReplyOk (env.discover LOCALHOST port)

/-- The devices enumerated from one port, each with the port's host and port and
the registration validator's answer for its `readerId`. -/
def devicesOfPort (env : Env) (port : Nat) : List Device :=
  (readerListOf (env.getDevices LOCALHOST port)).map fun reader =>
    { readerId := reader.readerId
      comPort := reader.comPort
      readerName := none
      host := LOCALHOST
      port := port
      isRegisteredInSystem := readerInSystem env reader.readerId }

/-- The discovery result as the specification words it: the devices of the ports
whose probe succeeded, in ascending port order and in enumeration order within a
port. -/
def discoveredDevices (env : Env) : List Device :=
  (portRange.filter (probeSucceeded env)).flatMap (devicesOfPort env)

/-- Six tasks with every kind of outcome. -/
def sampleTasks : List (TaskOutcome Nat) :=
  [.resolved (some 1), .threw ⟨"Error", "boom"⟩, .stalled, .resolved none,
    .rejected ⟨"TypeError", "Failed to fetch"⟩, .resolved (some 7)]

/-! ## Sample inputs -/

/-- A service on port 10005 with one attached reader `R1` on `COM3`; every request
succeeds and the registry knows every reader. -/
def sampleEnv : Env :=
  { now := 100
    setItemThrows := false
    discover := fun _ port =>
      if port = 10005 then .response true (.ok ⟨true, some "DISCOVER SERVICE SUCCESSFULLY"⟩)
      else .failure ⟨"TypeError", "Failed to fetch"⟩
    discoverStalls := fun _ => false
    getDevices := fun _ _ => .response true (.ok ⟨true, some [⟨"R1", "COM3", "Gate"⟩]⟩)
    setDevice := fun _ _ _ => .response true (.ok ⟨true, none⟩)
    testDeviceReply := fun _ _ _ => .response true (.ok ⟨true, none⟩)
    read := fun _ _ => .response true (.ok ⟨true, some [⟨"E200"⟩], none⟩)
    searchCount := fun _ => .ok 1 }

/-- The reader of `sampleEnv` as a registered device. -/
def sampleDevice : Device :=
  { readerId := "R1", comPort := "COM3", readerName := some "Gate", host := "127.0.0.1",
    port := 10005, isRegisteredInSystem := true }

/-- The same reader, not registered. -/
def unregisteredDevice : Device := { sampleDevice with isRegisteredInSystem := false }

/-- A registered device whose com port is empty. -/
def incompleteDevice : Device := { sampleDevice with comPort := "" }

/-- A stored record of the reader of `sampleEnv`, written at time 5. -/
def sampleRecord : DeviceData :=
  { host := "127.0.0.1", port := 10005, readerId := "R1", comPort := "COM3",
    readerName := some "Gate", lastConnected := 5 }

/-- A stored record of a reader that is no longer attached. -/
def staleRecord : DeviceData := { sampleRecord with readerId := "R9" }

/-- As `sampleEnv`, with `localStorage.setItem` throwing. -/
def fullStoreEnv : Env := { sampleEnv with setItemThrows := true }

/-- The widget after this run: `setup()` finds `staleRecord` and starts the
auto-connect; `selectDevice(sampleDevice)` completes while the GetDevices reply is
pending; then the reply arrives and the auto-connect resumes. -/
def overrunWidget : Widget :=
  (autoConnectResume sampleEnv (setup (some staleRecord)).2
    (selectDevice sampleEnv sampleDevice (setup (some staleRecord)).1)).1

/-- A second registered reader, on another com port. -/
def otherDevice : Device :=
  { readerId := "R2", comPort := "COM4", readerName := some "Exit", host := "127.0.0.1",
    port := 10005, isRegisteredInSystem := true }

/-- The reader of `sampleEnv` as seen through another host and port. -/
def movedDevice : Device := { sampleDevice with host := "192.168.1.20", port := 10432 }

/-- The widget connected to `sampleDevice`. -/
def connectedWidget : Widget := selectDevice sampleEnv sampleDevice (initialWidget none)

/-- As `sampleEnv`, with the service refusing every SetDevice request. -/
def refusingEnv : Env :=
  { sampleEnv with
    setDevice := fun _ _ _ => .response true (.ok ⟨false, some "Port busy"⟩) }

/-! # Properties -/

/-! ## Effect of the small steps on the session -/

@[simp]
theorem showNotification_state (m t : String) (b : Bool) (w : Widget) :
    (_showNotification m t b w).state = w.state := rfl

@[simp]
theorem showNotification_storage (m t : String) (b : Bool) (w : Widget) :
    (_showNotification m t b w).storage = w.storage := rfl

@[simp]
theorem showNotification_requests (m t : String) (b : Bool) (w : Widget) :
    (_showNotification m t b w).requests = w.requests := rfl

@[simp]
theorem logRequest_state (r : Request) (w : Widget) : (logRequest r w).state = w.state := rfl

@[simp]
theorem logRequest_storage (r : Request) (w : Widget) : (logRequest r w).storage = w.storage := rfl

@[simp]
theorem handleScanError_state (e : JsError) (w : Widget) :
    (_handleScanError e w).state = w.state := by
  unfold _handleScanError
  simp

@[simp]
theorem handleScanError_storage (e : JsError) (w : Widget) :
    (_handleScanError e w).storage = w.storage := by
  unfold _handleScanError
  simp

theorem truthy_eq_true {s : String} (h : s ≠ "") : truthy s = true := by
  simp [truthy, h]

@[simp]
theorem saveDeviceToStorage_state (env : Env) (readerInfo : Option ReaderInfo) (w : Widget) :
    (_saveDeviceToStorage env readerInfo w).state = w.state := by
  unfold _saveDeviceToStorage
  cases readerInfo with
  | none => rfl
  | some ri =>
    simp only
    split
    · rfl
    · split <;> rfl

theorem saveDeviceToStorage_notifications (env : Env) (readerInfo : Option ReaderInfo)
    (w : Widget) : (_saveDeviceToStorage env readerInfo w).notifications = w.notifications := by
  unfold _saveDeviceToStorage
  cases readerInfo with
  | none => rfl
  | some ri =>
    simp only
    split
    · rfl
    · split <;> rfl

theorem saveDeviceToStorage_requests (env : Env) (readerInfo : Option ReaderInfo)
    (w : Widget) : (_saveDeviceToStorage env readerInfo w).requests = w.requests := by
  unfold _saveDeviceToStorage
  cases readerInfo with
  | none => rfl
  | some ri =>
    simp only
    split
    · rfl
    · split <;> rfl

/-- The store after `_saveDeviceToStorage` on complete device info: the new record
when `setItem` succeeds, the old content when it throws. -/
theorem saveDeviceToStorage_storage (env : Env) (ri : ReaderInfo) (w : Widget)
    (hid : ri.readerId ≠ "") (hcom : ri.comPort ≠ "") :
    (_saveDeviceToStorage env (some ri) w).storage =
      if env.setItemThrows then w.storage
      else some
        { host := ri.host, port := ri.port, readerId := ri.readerId, comPort := ri.comPort,
          readerName := ri.readerName, lastConnected := env.now } := by
  unfold _saveDeviceToStorage
  simp only [truthy_eq_true hid, truthy_eq_true hcom, Bool.not_true, Bool.or_self,
    Bool.false_eq_true, if_false]
  split <;> rfl

theorem sessionInv_disconnect (w : Widget) : SessionInv (disconnectFromReader w) := by
  simp [SessionInv, disconnectFromReader, setStatus, _removeDeviceFromStorage]

theorem sessionInv_selectDevice (env : Env) (device : Device) (w : Widget)
    (h : SessionInv w) : SessionInv (selectDevice env device w) := by
  unfold selectDevice
  split
  · exact h
  · split
    · simpa [SessionInv, closeDeviceModal] using h
    · have hpre : ∀ w0 : Widget, SessionInv w0 → w0.state.isConnected = false →
          SessionInv
            (match _setDevice env device.host device.port device.comPort
                (setStatus .connecting w0) with
            | (.ok _, w1) => closeDeviceModal (_connectToDevice env device w1)
            | (.error error, w1) =>
              _showNotification ("Lỗi kết nối: " ++ error.message) "danger" false
                (setStatus .disconnected w1)) := by
        intro w0 h0 hc
        obtain ⟨_, h2⟩ := h0
        have hr : w0.state.readerInfo.isSome = false := by
          cases hri : w0.state.readerInfo.isSome
          · rfl
          · rw [h2.mpr hri] at hc
            cases hc
        unfold _setDevice
        cases setDeviceOutcome (env.setDevice device.host device.port device.comPort) with
        | error e => simp [SessionInv, setStatus, hc, hr]
        | ok u =>
          simp [SessionInv, closeDeviceModal, _connectToDevice, setStatus]
      by_cases hc : w.state.isConnected = true
      · simp only [hc, if_true]
        exact hpre _ (sessionInv_disconnect w)
          (by simp [disconnectFromReader, setStatus, _removeDeviceFromStorage])
      · simp only [hc]
        exact hpre _ h (by simpa using hc)

theorem getTags_state (env : Env) (w : Widget) :
    (getTags env w).2.state = w.state ∨
      (getTags env w).2.state = { w.state with isScanning := false } := by
  unfold getTags
  split
  · right
    rcases hrd : env.read _ _ with e | ⟨ok, json⟩
    · simp
    · rcases json with e | data
      · simp
      · simp only
        split
        · simp
        · split
          · simp
          · split <;> simp
  · left
    simp

theorem getTags_storage (env : Env) (w : Widget) : (getTags env w).2.storage = w.storage := by
  unfold getTags
  split
  · rcases hrd : env.read _ _ with e | ⟨ok, json⟩
    · simp
    · rcases json with e | data
      · simp
      · simp only
        split
        · simp
        · split
          · simp
          · split <;> simp
  · simp

theorem testDevice_session (env : Env) (device : Device) (w : Widget) :
    (testDevice env device w).state = { w.state with testingDevice := none } ∧
      (testDevice env device w).storage = w.storage := by
  unfold testDevice
  cases testDeviceOutcome (env.testDeviceReply device.host device.port device.comPort) <;>
    simp

theorem connInv_of_sessionInv {w : Widget} (h : SessionInv w) : ConnInv w :=
  ⟨h.2, fun hs => h.1.mpr hs⟩

theorem connInv_disconnect (w : Widget) : ConnInv (disconnectFromReader w) :=
  connInv_of_sessionInv (sessionInv_disconnect w)

theorem connInv_selectDevice (env : Env) (device : Device) (w : Widget)
    (h : ConnInv w) : ConnInv (selectDevice env device w) := by
  unfold selectDevice
  split
  · exact h
  · split
    · simpa [ConnInv, closeDeviceModal] using h
    · have hpre : ∀ w0 : Widget, ConnInv w0 → w0.state.isConnected = false →
          ConnInv
            (match _setDevice env device.host device.port device.comPort
                (setStatus .connecting w0) with
            | (.ok _, w1) => closeDeviceModal (_connectToDevice env device w1)
            | (.error error, w1) =>
              _showNotification ("Lỗi kết nối: " ++ error.message) "danger" false
                (setStatus .disconnected w1)) := by
        intro w0 h0 hc
        have hr : w0.state.readerInfo.isSome = false := by
          cases hri : w0.state.readerInfo.isSome
          · rfl
          · rw [h0.1.mpr hri] at hc
            cases hc
        unfold _setDevice
        cases setDeviceOutcome (env.setDevice device.host device.port device.comPort) with
        | error e => simp [ConnInv, setStatus, hc, hr]
        | ok u => simp [ConnInv, closeDeviceModal, _connectToDevice, setStatus]
      by_cases hc : w.state.isConnected = true
      · simp only [hc, if_true]
        exact hpre _ (connInv_disconnect w)
          (by simp [disconnectFromReader, setStatus, _removeDeviceFromStorage])
      · simp only [hc]
        exact hpre _ h (by simpa using hc)

theorem connInv_op (env : Env) (op : Op) (w : Widget) (h : ConnInv w) :
    ConnInv (op.run env w) := by
  cases op with
  | selectDevice device => exact connInv_selectDevice env device w h
  | disconnectFromReader => exact connInv_disconnect w
  | getTags =>
    show ConnInv (getTags env w).2
    unfold ConnInv at h ⊢
    rcases getTags_state env w with hs | hs <;> rw [hs] <;> exact h
  | testDevice device =>
    show ConnInv (testDevice env device w)
    unfold ConnInv at h ⊢
    rw [(testDevice_session env device w).1]
    exact h

theorem connInv_setup (storage : Option DeviceData) : ConnInv (setup storage).1 := by
  unfold setup _autoConnectSavedDevice
  simp only [initialWidget, Bool.or_self, Bool.false_eq_true, if_false, _getDeviceFromStorage]
  cases storage <;> simp [ConnInv, setStatus, initialState]

theorem connInv_resume (env : Env) (pending : AutoConnect) (w : Widget) (h : ConnInv w) :
    ConnInv (autoConnectResume env pending w).1 := by
  unfold autoConnectResume
  cases pending with
  | finished => exact h
  | awaitingReaderList saved =>
    simp only [_validateSavedDevice, _getReaderList]
    cases (readerListOf (env.getDevices saved.host saved.port)).find?
        (fun r => r.readerId == saved.readerId && r.comPort == saved.comPort) with
    | none =>
      unfold ConnInv at h ⊢
      simpa [setStatus, _removeDeviceFromStorage] using h.1
    | some v => exact h
  | awaitingRegistry v saved =>
    simp only [_validateReaderInSystem]
    cases readerInSystem env v.readerId
    · unfold ConnInv at h ⊢
      simpa [setStatus, _removeDeviceFromStorage] using h.1
    · simp [ConnInv, _connectToValidatedDevice, setStatus]

theorem connInv_of_reachable {w : Widget} {pending : AutoConnect} (h : Reachable w pending) :
    ConnInv w := by
  induction h with
  | setup storage => exact connInv_setup storage
  | resume env w pending _ ih => exact connInv_resume env pending w ih
  | step env op w pending _ ih => exact connInv_op env op w ih

theorem setup_some (saved : DeviceData) :
    setup (some saved) =
      (setStatus .connecting { initialWidget (some saved) with isAutoConnecting := true },
        .awaitingReaderList saved) := by
  unfold setup _autoConnectSavedDevice
  simp [initialWidget, _getDeviceFromStorage]

/-- The widget after an undisturbed startup over a stored record, by the replies. -/
theorem startup_some (env : Env) (saved : DeviceData) :
    startup env (some saved) =
      match (readerListOf (env.getDevices saved.host saved.port)).find?
          (fun r => r.readerId == saved.readerId && r.comPort == saved.comPort) with
      | none =>
        { _showNotification "Thiết bị đã lưu không khả dụng. Vui lòng kết nối lại." "warning"
            false
            (setStatus .disconnected (_removeDeviceFromStorage
              (logRequest (.getDevices saved.host saved.port) (setup (some saved)).1))) with
          isAutoConnecting := false }
      | some v =>
        { (if !readerInSystem env v.readerId then
            _showNotification
              ("Thiết bị " ++ v.readerId ++
                " chưa được đăng ký trong hệ thống. Hãy liên hệ chúng tôi để được hỗ trợ.")
              "warning" true
              (setStatus .disconnected (_removeDeviceFromStorage
                (logRequest (.searchCount v.readerId)
                  (logRequest (.getDevices saved.host saved.port) (setup (some saved)).1))))
          else
            _connectToValidatedDevice env v saved
              (logRequest (.searchCount v.readerId)
                (logRequest (.getDevices saved.host saved.port) (setup (some saved)).1))) with
          isAutoConnecting := false } := by
  unfold startup
  rw [setup_some]
  cases hf : (readerListOf (env.getDevices saved.host saved.port)).find?
      (fun r => r.readerId == saved.readerId && r.comPort == saved.comPort) with
  | none => simp [autoConnectResume, _validateSavedDevice, _getReaderList, hf]
  | some v =>
    simp [autoConnectResume, _validateSavedDevice, _getReaderList, hf, _validateReaderInSystem]

theorem sessionInv_startup (env : Env) (storage : Option DeviceData) :
    SessionInv (startup env storage) := by
  cases storage with
  | none =>
    unfold startup setup _autoConnectSavedDevice
    simp [initialWidget, _getDeviceFromStorage, autoConnectResume, SessionInv, initialState]
  | some saved =>
    rw [startup_some, setup_some]
    cases (readerListOf (env.getDevices saved.host saved.port)).find?
        (fun r => r.readerId == saved.readerId && r.comPort == saved.comPort) with
    | none => simp [SessionInv, setStatus, _removeDeviceFromStorage, initialWidget, initialState]
    | some v =>
      cases hreg : readerInSystem env v.readerId
      · simp [SessionInv, setStatus, _removeDeviceFromStorage, initialWidget, initialState, hreg]
      · simp [SessionInv, _connectToValidatedDevice, setStatus, hreg]

theorem sessionInv_of_reachableInOrder {w : Widget} (h : ReachableInOrder w) :
    SessionInv w := by
  induction h with
  | startup env storage => exact sessionInv_startup env storage
  | step env op w _ ih =>
    cases op with
    | selectDevice device => exact sessionInv_selectDevice env device w ih
    | disconnectFromReader => exact sessionInv_disconnect w
    | getTags =>
      show SessionInv (getTags env w).2
      unfold SessionInv at ih ⊢
      rcases getTags_state env w with hs | hs <;> rw [hs] <;> exact ih
    | testDevice device =>
      show SessionInv (testDevice env device w)
      unfold SessionInv at ih ⊢
      rw [(testDevice_session env device w).1]
      exact ih

theorem find_none_of_not_listed {readers : List Reader} {saved : DeviceData}
    (h : ¬ pairListed readers saved) :
    readers.find? (fun r => r.readerId == saved.readerId && r.comPort == saved.comPort) = none := by
  rw [List.find?_eq_none]
  intro r hr hp
  apply h
  refine ⟨r, hr, ?_⟩
  simpa using hp

theorem find_some_of_listed {readers : List Reader} {saved : DeviceData}
    (h : pairListed readers saved) :
    ∃ v, readers.find? (fun r => r.readerId == saved.readerId && r.comPort == saved.comPort)
        = some v ∧ v.readerId = saved.readerId ∧ v.comPort = saved.comPort := by
  cases hf : readers.find?
      (fun r => r.readerId == saved.readerId && r.comPort == saved.comPort) with
  | none =>
    exfalso
    rw [List.find?_eq_none] at hf
    obtain ⟨r, hr, h1, h2⟩ := h
    exact hf r hr (by simp [h1, h2])
  | some v =>
    have := List.find?_some hf
    exact ⟨v, rfl, by simpa using this⟩

/-! ## The connection manager -/

/-- A record written by `_saveDeviceToStorage` has a non-empty `readerId` and a
non-empty `comPort`. -/
theorem saveDeviceToStorage_complete (env : Env) (readerInfo : Option ReaderInfo) (w : Widget)
    (stored : DeviceData)
    (hnew : (_saveDeviceToStorage env readerInfo w).storage = some stored)
    (hold : w.storage ≠ some stored) :
    stored.readerId ≠ "" ∧ stored.comPort ≠ "" := by
  unfold _saveDeviceToStorage at hnew
  cases readerInfo with
  | none => exact absurd hnew hold
  | some ri =>
    simp only at hnew
    split at hnew
    · exact absurd hnew hold
    · rename_i hguard
      split at hnew
      · exact absurd hnew hold
      · simp only [Option.some.injEq] at hnew
        subst hnew
        simpa [truthy] using hguard

theorem autoConnect_two_resumes (env : Env) (pending : AutoConnect) (w : Widget) :
    (autoConnectResume env (autoConnectResume env pending w).2
      (autoConnectResume env pending w).1).2 = .finished := by
  cases pending with
  | finished => rfl
  | awaitingReaderList saved =>
    unfold autoConnectResume
    simp only [_validateSavedDevice, _getReaderList]
    cases (readerListOf (env.getDevices saved.host saved.port)).find?
        (fun r => r.readerId == saved.readerId && r.comPort == saved.comPort) <;> rfl
  | awaitingRegistry v saved => rfl

/-- A run in which nothing overlaps is a run of the program, and it ends with the
auto-connect returned. -/
theorem reachable_of_inOrder {w : Widget} (h : ReachableInOrder w) : Reachable w .finished := by
  induction h with
  | startup env storage =>
    have h2 := Reachable.resume env _ _ (Reachable.resume env _ _ (Reachable.setup storage))
    rw [autoConnect_two_resumes] at h2
    exact h2
  | step env op w _ ih => exact Reachable.step env op w .finished ih

/-- C1, as stated, fails: `setup()` starts the auto-connect over a stored record
without awaiting it; a `selectDevice` that completes while the GetDevices reply is
pending connects the session; the auto-connect then resumes, finds the stored reader
gone and only sets the status to `disconnected`.  Every operation has completed, yet
`isConnected` is true and `readerInfo` present while the status is
`disconnected`. -/
theorem autoConnect_overrun_breaks_invariant :
    Reachable overrunWidget .finished ∧
      overrunWidget.state.isConnected = true ∧
      overrunWidget.state.readerInfo.isSome = true ∧
      overrunWidget.state.connectionStatus = .disconnected := by
  refine ⟨?_, by decide, by decide, by decide⟩
  have h := Reachable.resume sampleEnv _ _
    (Reachable.step sampleEnv (.selectDevice sampleDevice) _ _ (Reachable.setup (some staleRecord)))
  exact h

/-- C1 (amended): in every widget the program reaches by `setup()`, any resumption of
the auto-connect it started and any completed `selectDevice`,
`disconnectFromReader`, `getTags` and `testDevice` calls, in any order and whatever
the service and the registry reply, `isConnected` is true iff `readerInfo` is
present, and the status `connected` implies `isConnected`.  When nothing overlaps
(the startup auto-connect runs to its end before the first operation), `isConnected`
is moreover true iff `connectionStatus` is `connected`. -/
theorem session_invariant_reachable (w : Widget) (pending : AutoConnect)
    (h : Reachable w pending) :
    (w.state.isConnected = true ↔ w.state.readerInfo.isSome = true) ∧
      (w.state.connectionStatus = .connected → w.state.isConnected = true) ∧
      (ReachableInOrder w →
        (w.state.isConnected = true ↔ w.state.connectionStatus = .connected)) :=
  ⟨(connInv_of_reachable h).1, (connInv_of_reachable h).2,
    fun hseq => (sessionInv_of_reachableInOrder hseq).1⟩

theorem session_invariant_reachable_witness :
    Reachable connectedWidget .finished ∧
      ReachableInOrder connectedWidget ∧
      (connectedWidget.state.isConnected = true ↔
        connectedWidget.state.readerInfo.isSome = true) ∧
      (connectedWidget.state.connectionStatus = .connected →
        connectedWidget.state.isConnected = true) ∧
      (ReachableInOrder connectedWidget →
        (connectedWidget.state.isConnected = true ↔
          connectedWidget.state.connectionStatus = .connected)) :=
  ⟨reachable_of_inOrder
      (ReachableInOrder.step sampleEnv (.selectDevice sampleDevice) _
        (ReachableInOrder.startup sampleEnv none)),
    ReachableInOrder.step sampleEnv (.selectDevice sampleDevice) _
      (ReachableInOrder.startup sampleEnv none),
    session_invariant_reachable connectedWidget .finished
      (reachable_of_inOrder
        (ReachableInOrder.step sampleEnv (.selectDevice sampleDevice) _
          (ReachableInOrder.startup sampleEnv none)))⟩

/-- C4, as stated, fails: a registered device with an empty com port is connected
after a successful SetDevice, yet nothing is persisted. -/
theorem selectDevice_incomplete_not_persisted :
    incompleteDevice.isRegisteredInSystem = true ∧
      _isCurrentDevice (initialWidget none) incompleteDevice = false ∧
      sampleEnv.setDevice incompleteDevice.host incompleteDevice.port incompleteDevice.comPort
        = .response true (.ok ⟨true, none⟩) ∧
      (selectDevice sampleEnv incompleteDevice (initialWidget none)).state.connectionStatus
        = .connected ∧
      (selectDevice sampleEnv incompleteDevice (initialWidget none)).storage = none := by
  refine ⟨rfl, rfl, rfl, ?_, ?_⟩ <;> decide

/-- A second way in which C4, as stated, fails: when `localStorage.setItem` throws,
the error is caught, the session is connected and nothing is persisted. -/
theorem selectDevice_store_rejects_not_persisted :
    (selectDevice fullStoreEnv sampleDevice (initialWidget none)).state.connectionStatus
        = .connected ∧
      (selectDevice fullStoreEnv sampleDevice (initialWidget none)).storage = none := by
  decide

/-- C4 (amended): for every registered device that is not the currently connected
one, when the SetDevice call reports success, after `selectDevice` the status is
`connected` and the session holds the device; when moreover the device's `readerId`
and `comPort` are non-empty and `localStorage` accepts the write, the persisted
record holds the device's host, port, readerId, comPort and readerName together with
the current time as `lastConnected`. -/
theorem selectDevice_success_persists (env : Env) (w : Widget) (device : Device)
    (ok : Bool) (body : StatusBody)
    (hreg : device.isRegisteredInSystem = true)
    (hcur : _isCurrentDevice w device = false)
    (hreply : env.setDevice device.host device.port device.comPort = .response ok (.ok body))
    (hsucc : body.Success = true) :
    (selectDevice env device w).state.connectionStatus = .connected ∧
      (selectDevice env device w).state.isConnected = true ∧
      (selectDevice env device w).state.readerInfo = some
        { readerId := device.readerId, comPort := device.comPort, host := device.host,
          port := device.port, status := none, readerName := device.readerName } ∧
      (device.readerId ≠ "" → device.comPort ≠ "" → env.setItemThrows = false →
        (selectDevice env device w).storage = some
          { host := device.host, port := device.port, readerId := device.readerId,
            comPort := device.comPort, readerName := device.readerName,
            lastConnected := env.now }) := by
  unfold selectDevice
  simp only [hreg, hcur, Bool.not_true, Bool.false_eq_true, if_false, _setDevice, hreply,
    setDeviceOutcome, hsucc, closeDeviceModal, _connectToDevice, setStatus,
    showNotification_state, showNotification_storage, saveDeviceToStorage_state]
  refine ⟨trivial, trivial, trivial, ?_⟩
  intro hid hcom hstore
  rw [saveDeviceToStorage_storage env _ _ hid hcom]
  simp [hstore]

theorem selectDevice_success_persists_witness :
    sampleDevice.isRegisteredInSystem = true ∧
      _isCurrentDevice (initialWidget none) sampleDevice = false ∧
      (selectDevice sampleEnv sampleDevice (initialWidget none)).state.connectionStatus
        = .connected ∧
      (selectDevice sampleEnv sampleDevice (initialWidget none)).state.isConnected = true ∧
      (selectDevice sampleEnv sampleDevice (initialWidget none)).state.readerInfo = some
        { readerId := sampleDevice.readerId, comPort := sampleDevice.comPort,
          host := sampleDevice.host, port := sampleDevice.port, status := none,
          readerName := sampleDevice.readerName } ∧
      (sampleDevice.readerId ≠ "" → sampleDevice.comPort ≠ "" →
        sampleEnv.setItemThrows = false →
        (selectDevice sampleEnv sampleDevice (initialWidget none)).storage = some
          { host := sampleDevice.host, port := sampleDevice.port,
            readerId := sampleDevice.readerId, comPort := sampleDevice.comPort,
            readerName := sampleDevice.readerName, lastConnected := sampleEnv.now }) :=
  ⟨rfl, rfl,
    selectDevice_success_persists sampleEnv (initialWidget none) sampleDevice true ⟨true, none⟩
      rfl rfl rfl rfl⟩

/-- C5: for a device with `isRegisteredInSystem` false, from every widget,
`selectDevice` leaves `connectionStatus`, `isConnected`, `readerInfo` (indeed the
whole reactive state) and the persisted record unchanged and issues no request, so
no SetDevice request. -/
theorem selectDevice_unregistered_noop (env : Env) (device : Device) (w : Widget)
    (hreg : device.isRegisteredInSystem = false) :
    (selectDevice env device w).state.connectionStatus = w.state.connectionStatus ∧
      (selectDevice env device w).state.isConnected = w.state.isConnected ∧
      (selectDevice env device w).state.readerInfo = w.state.readerInfo ∧
      (selectDevice env device w).state = w.state ∧
      (selectDevice env device w).storage = w.storage ∧
      (selectDevice env device w).requests = w.requests := by
  unfold selectDevice
  simp [hreg]

theorem selectDevice_unregistered_noop_witness :
    unregisteredDevice.isRegisteredInSystem = false ∧
      (selectDevice sampleEnv unregisteredDevice (startup sampleEnv (some sampleRecord))).state.connectionStatus
        = (startup sampleEnv (some sampleRecord)).state.connectionStatus ∧
      (selectDevice sampleEnv unregisteredDevice (startup sampleEnv (some sampleRecord))).state.isConnected
        = (startup sampleEnv (some sampleRecord)).state.isConnected ∧
      (selectDevice sampleEnv unregisteredDevice (startup sampleEnv (some sampleRecord))).state.readerInfo
        = (startup sampleEnv (some sampleRecord)).state.readerInfo ∧
      (selectDevice sampleEnv unregisteredDevice (startup sampleEnv (some sampleRecord))).state
        = (startup sampleEnv (some sampleRecord)).state ∧
      (selectDevice sampleEnv unregisteredDevice (startup sampleEnv (some sampleRecord))).storage
        = (startup sampleEnv (some sampleRecord)).storage ∧
      (selectDevice sampleEnv unregisteredDevice (startup sampleEnv (some sampleRecord))).requests
        = (startup sampleEnv (some sampleRecord)).requests :=
  ⟨rfl, selectDevice_unregistered_noop sampleEnv unregisteredDevice
    (startup sampleEnv (some sampleRecord)) rfl⟩

/-- The tag `getTags` returns on a connected session, as a function of the reply. -/
theorem getTags_connected_fst (env : Env) (w : Widget) (ri : ReaderInfo)
    (hc : w.state.isConnected = true) (hr : w.state.readerInfo = some ri) :
    (getTags env w).1 =
      match env.read ri.host ri.port with
      | .response _ (.ok data) =>
        if data.Success then
          match data.Data with
          | some [t] => some t.UID
          | _ => none
        else none
      | _ => none := by
  unfold getTags
  simp only [hc, hr]
  rcases env.read ri.host ri.port with e | ⟨ok, json⟩
  · rfl
  · rcases json with e | data
    · rfl
    · rcases data with ⟨succ, dat, msg⟩
      cases succ
      · rfl
      · rcases dat with _ | l
        · rfl
        · rcases l with _ | ⟨t, l⟩
          · rfl
          · rcases l with _ | ⟨t2, l⟩
            · rfl
            · simp

/-- C6: on a connected session `getTags` returns a tag identifier iff the read
response reports success with exactly one tag entry, and then it is that entry's
UID; it returns `null` for a successful response with zero entries, with two or more
entries, for a non-success body, for an unreadable body and for a transport
failure. -/
theorem getTags_one_tag_iff (env : Env) (w : Widget) (ri : ReaderInfo)
    (hc : w.state.isConnected = true) (hr : w.state.readerInfo = some ri) :
    (∀ uid, (getTags env w).1 = some uid ↔
        ∃ ok data t, env.read ri.host ri.port = .response ok (.ok data) ∧
          data.Success = true ∧ data.Data = some [t] ∧ t.UID = uid) ∧
      (∀ ok data, env.read ri.host ri.port = .response ok (.ok data) → data.Success = true →
        data.Data = some [] → (getTags env w).1 = none) ∧
      (∀ ok data ts, env.read ri.host ri.port = .response ok (.ok data) → data.Success = true →
        data.Data = some ts → 2 ≤ ts.length → (getTags env w).1 = none) ∧
      (∀ ok data, env.read ri.host ri.port = .response ok (.ok data) → data.Success = false →
        (getTags env w).1 = none) ∧
      (∀ ok e, env.read ri.host ri.port = .response ok (.error e) → (getTags env w).1 = none) ∧
      (∀ e, env.read ri.host ri.port = .failure e → (getTags env w).1 = none) := by
  rw [getTags_connected_fst env w ri hc hr]
  refine ⟨?_, ?_, ?_, ?_, ?_, ?_⟩
  · intro uid
    constructor
    · intro h
      rcases hrd : env.read ri.host ri.port with e | ⟨ok, json⟩
      · rw [hrd] at h
        cases h
      · rcases json with e | data
        · rw [hrd] at h
          cases h
        · rw [hrd] at h
          rcases data with ⟨succ, dat, msg⟩
          cases succ
          · cases h
          · rcases dat with _ | l
            · cases h
            · rcases l with _ | ⟨t, l⟩
              · cases h
              · rcases l with _ | ⟨t2, l⟩
                · simp only [if_true] at h
                  exact ⟨ok, _, t, rfl, rfl, rfl, by simpa using h⟩
                · cases h
    · rintro ⟨ok, data, t, hrd, hs, hd, hu⟩
      rw [hrd]
      simp [hs, hd, hu]
  · intro ok data hrd hs hd
    rw [hrd]
    simp [hs, hd]
  · intro ok data ts hrd hs hd hlen
    rw [hrd]
    rcases ts with _ | ⟨t, ts⟩
    · simp at hlen
    · rcases ts with _ | ⟨t2, ts⟩
      · simp at hlen
      · simp [hs, hd]
  · intro ok data hrd hs
    rw [hrd]
    simp [hs]
  · intro ok e hrd
    rw [hrd]
  · intro e hrd
    rw [hrd]

theorem getTags_one_tag_iff_witness :
    (selectDevice sampleEnv sampleDevice (initialWidget none)).state.isConnected = true ∧
      (getTags sampleEnv (selectDevice sampleEnv sampleDevice (initialWidget none))).1
        = some "E200" :=
  ⟨rfl,
    ((getTags_one_tag_iff sampleEnv (selectDevice sampleEnv sampleDevice (initialWidget none))
      ⟨"R1", "COM3", "127.0.0.1", 10005, none, some "Gate"⟩ rfl rfl).1 "E200").2
      ⟨true, ⟨true, some [⟨"E200"⟩], none⟩, ⟨"E200"⟩, rfl, rfl, rfl, rfl⟩⟩

/-- C7: `disconnectFromReader` is idempotent on the session and the store: from every
widget, a second call leaves the reactive state, the flags and the store as the
first call left them, namely `connectionStatus` `disconnected`, `isConnected` false,
`readerInfo` absent, `isScanning` false and no persisted record.  The operation is a
total function: neither call can fail. -/
theorem disconnectFromReader_idempotent (w : Widget) :
    (disconnectFromReader (disconnectFromReader w)).state = (disconnectFromReader w).state ∧
      (disconnectFromReader (disconnectFromReader w)).storage
        = (disconnectFromReader w).storage ∧
      (disconnectFromReader (disconnectFromReader w)).isAutoConnecting
        = (disconnectFromReader w).isAutoConnecting ∧
      (disconnectFromReader (disconnectFromReader w)).isDestroyed
        = (disconnectFromReader w).isDestroyed ∧
      (disconnectFromReader w).state.connectionStatus = .disconnected ∧
      (disconnectFromReader w).state.isConnected = false ∧
      (disconnectFromReader w).state.readerInfo = none ∧
      (disconnectFromReader w).state.isScanning = false ∧
      (disconnectFromReader w).storage = none := by
  simp [disconnectFromReader, setStatus, _removeDeviceFromStorage, _showNotification]

/-- Whatever happened while the auto-connect was suspended, when it resumes and the
stored pair is not listed it removes the record and sets the status to
`disconnected`, and it writes neither `isConnected` nor `readerInfo`. -/
theorem autoConnectResume_unlisted (env : Env) (saved : DeviceData) (w : Widget)
    (h : ¬ pairListed (readerListOf (env.getDevices saved.host saved.port)) saved) :
    (autoConnectResume env (.awaitingReaderList saved) w).2 = .finished ∧
      (autoConnectResume env (.awaitingReaderList saved) w).1.state.connectionStatus
        = .disconnected ∧
      (autoConnectResume env (.awaitingReaderList saved) w).1.storage = none ∧
      (autoConnectResume env (.awaitingReaderList saved) w).1.state.isConnected
        = w.state.isConnected ∧
      (autoConnectResume env (.awaitingReaderList saved) w).1.state.readerInfo
        = w.state.readerInfo := by
  unfold autoConnectResume
  simp only [_validateSavedDevice, _getReaderList, find_none_of_not_listed h]
  simp [setStatus, _removeDeviceFromStorage]

/-- C8: on startup with a persisted record, if the stored `(readerId, comPort)` pair
is absent from the fresh enumeration of the stored host and port, or is present but
the reader is not registered, the auto-connect ends with `connectionStatus`
`disconnected`, `isConnected` false, `readerInfo` absent and the persisted record
removed. -/
theorem autoConnect_invalid_record_discarded (env : Env) (saved : DeviceData)
    (h : ¬ pairListed (readerListOf (env.getDevices saved.host saved.port)) saved ∨
      (pairListed (readerListOf (env.getDevices saved.host saved.port)) saved ∧
        readerInSystem env saved.readerId = false)) :
    (startup env (some saved)).state.connectionStatus = .disconnected ∧
      (startup env (some saved)).state.isConnected = false ∧
      (startup env (some saved)).state.readerInfo = none ∧
      (startup env (some saved)).storage = none := by
  rw [startup_some, setup_some]
  rcases h with h | ⟨h, hreg⟩
  · rw [find_none_of_not_listed h]
    simp [setStatus, _removeDeviceFromStorage, initialWidget, initialState]
  · obtain ⟨v, hv, hid, _⟩ := find_some_of_listed h
    rw [hv]
    simp [hid, hreg, setStatus, _removeDeviceFromStorage, initialWidget, initialState]

theorem autoConnect_invalid_record_discarded_witness :
    ¬ pairListed (readerListOf (sampleEnv.getDevices staleRecord.host staleRecord.port))
        staleRecord ∧
      (startup sampleEnv (some staleRecord)).state.connectionStatus = .disconnected ∧
      (startup sampleEnv (some staleRecord)).state.isConnected = false ∧
      (startup sampleEnv (some staleRecord)).state.readerInfo = none ∧
      (startup sampleEnv (some staleRecord)).storage = none :=
  ⟨by simp [pairListed, readerListOf, sampleEnv, staleRecord, sampleRecord],
    autoConnect_invalid_record_discarded sampleEnv staleRecord
      (Or.inl (by simp [pairListed, readerListOf, sampleEnv, staleRecord, sampleRecord]))⟩

/-- C9, as stated, fails: with a stored record of an attached, registered reader,
when `localStorage.setItem` throws the error is caught: the session is reconnected
but the record is not rewritten and keeps its old `lastConnected`. -/
theorem autoConnect_store_rejects_not_rewritten :
    pairListed
        (readerListOf (fullStoreEnv.getDevices sampleRecord.host sampleRecord.port))
        sampleRecord ∧
      readerInSystem fullStoreEnv sampleRecord.readerId = true ∧
      sampleRecord.readerId ≠ "" ∧ sampleRecord.comPort ≠ "" ∧
      (startup fullStoreEnv (some sampleRecord)).state.connectionStatus = .connected ∧
      (startup fullStoreEnv (some sampleRecord)).storage = some sampleRecord ∧
      sampleRecord.lastConnected ≠ fullStoreEnv.now := by
  refine ⟨⟨⟨"R1", "COM3", some "Gate"⟩, ?_, rfl, rfl⟩, rfl, ?_, ?_, ?_, ?_, ?_⟩
  · simp [readerListOf, fullStoreEnv, sampleEnv]
  all_goals decide

/-- C9 (amended): on startup with a persisted record whose pair appears in the fresh
enumeration and whose reader is registered, the undisturbed auto-connect ends with
`connectionStatus` `connected` and `isConnected` true, and `readerInfo` carries the
stored host and port (and the stored readerId and comPort).  When `localStorage`
accepts the write, the persisted record (complete, as every record the widget writes
is) is rewritten with the same host, port, readerId and comPort and the current time
as `lastConnected`; when `setItem` throws, the record is left as it was stored. -/
theorem autoConnect_valid_record_reconnects (env : Env) (saved : DeviceData)
    (hlisted : pairListed (readerListOf (env.getDevices saved.host saved.port)) saved)
    (hreg : readerInSystem env saved.readerId = true) :
    (startup env (some saved)).state.connectionStatus = .connected ∧
      (startup env (some saved)).state.isConnected = true ∧
      (∃ ri, (startup env (some saved)).state.readerInfo = some ri ∧
        ri.host = saved.host ∧ ri.port = saved.port ∧
        ri.readerId = saved.readerId ∧ ri.comPort = saved.comPort) ∧
      (saved.readerId ≠ "" → saved.comPort ≠ "" → env.setItemThrows = false →
        ∃ stored, (startup env (some saved)).storage = some stored ∧
          stored.host = saved.host ∧ stored.port = saved.port ∧
          stored.readerId = saved.readerId ∧ stored.comPort = saved.comPort ∧
          stored.lastConnected = env.now) ∧
      (env.setItemThrows = true → (startup env (some saved)).storage = some saved) := by
  obtain ⟨v, hv, hvid, hvcom⟩ := find_some_of_listed hlisted
  rw [startup_some, setup_some, hv]
  simp only [hvid, hreg, Bool.not_true, Bool.false_eq_true, if_false, _connectToValidatedDevice,
    setStatus, saveDeviceToStorage_state]
  refine ⟨trivial, trivial, ?_, ?_, ?_⟩
  · exact ⟨_, rfl, rfl, rfl, rfl, hvcom⟩
  · intro hid hcom hstore
    rw [saveDeviceToStorage_storage env _ _ (by simpa [hvid] using hid)
      (by simpa [hvcom] using hcom)]
    simp [hstore, hvid, hvcom]
  · intro hstore
    unfold _saveDeviceToStorage
    simp only [hstore, if_true]
    split <;> rfl

theorem autoConnect_valid_record_reconnects_witness :
    pairListed (readerListOf (sampleEnv.getDevices sampleRecord.host sampleRecord.port))
        sampleRecord ∧
      (startup sampleEnv (some sampleRecord)).state.connectionStatus = .connected ∧
      (startup sampleEnv (some sampleRecord)).state.isConnected = true ∧
      (∃ ri, (startup sampleEnv (some sampleRecord)).state.readerInfo = some ri ∧
        ri.host = sampleRecord.host ∧ ri.port = sampleRecord.port ∧
        ri.readerId = sampleRecord.readerId ∧ ri.comPort = sampleRecord.comPort) ∧
      (sampleRecord.readerId ≠ "" → sampleRecord.comPort ≠ "" →
        sampleEnv.setItemThrows = false →
        ∃ stored, (startup sampleEnv (some sampleRecord)).storage = some stored ∧
          stored.host = sampleRecord.host ∧ stored.port = sampleRecord.port ∧
          stored.readerId = sampleRecord.readerId ∧ stored.comPort = sampleRecord.comPort ∧
          stored.lastConnected = sampleEnv.now) ∧
      (sampleEnv.setItemThrows = true →
        (startup sampleEnv (some sampleRecord)).storage = some sampleRecord) :=
  ⟨⟨⟨"R1", "COM3", some "Gate"⟩, by simp [readerListOf, sampleEnv], rfl, rfl⟩,
    autoConnect_valid_record_reconnects sampleEnv sampleRecord
      ⟨⟨"R1", "COM3", some "Gate"⟩, by simp [readerListOf, sampleEnv], rfl, rfl⟩ rfl⟩

/-! ## The bounded task runner -/

theorem length_arraySet {β : Type} (a : List (Slot β)) (i : Nat) (v : β) :
    (arraySet a i v).length = max a.length (i + 1) := by
  unfold arraySet
  split
  · rw [List.length_set]
    omega
  · simp only [List.length_append, List.length_replicate, List.length_singleton]
    omega

theorem getD_arraySet {β : Type} (a : List (Slot β)) (i : Nat) (v : β) (j : Nat) :
    (arraySet a i v).getD j .hole = if j = i then .filled v else a.getD j .hole := by
  unfold arraySet
  simp only [List.getD_eq_getElem?_getD]
  split
  · rename_i h
    rw [List.getElem?_set]
    by_cases hji : j = i
    · subst hji
      simp [h]
    · have : ¬ i = j := fun e => hji e.symm
      simp [hji, this]
  · rename_i h
    have hle : a.length ≤ i := Nat.le_of_not_lt h
    by_cases hji : j = i
    · subst hji
      rw [List.getElem?_append_right (by simp; omega)]
      have h0 : j - (a.length + (j - a.length)) = 0 := by omega
      simp [h0]
    · simp only [hji, if_false]
      by_cases hj : j < a.length
      · rw [List.append_assoc, List.getElem?_append_left hj]
      · have hja : a.length ≤ j := Nat.le_of_not_lt hj
        rw [List.getElem?_eq_none (l := a) hja]
        by_cases hj2 : j < i
        · rw [List.getElem?_append_left (by simp; omega),
            List.getElem?_append_right hja, List.getElem?_replicate]
          split <;> rfl
        · rw [List.getElem?_eq_none (by simp; omega)]

theorem runInv_await {α : Type} {taskFns : List (TaskOutcome α)} {s : RunState α}
    (h : RunInv taskFns s) (hlt : s.i < taskFns.length) :
    RunInv taskFns
      { s with i := s.i + 1, invoked := s.invoked ++ [s.i], awaiting := s.awaiting ++ [s.i] } := by
  have hnot : s.i ∉ s.awaiting := fun hm => Nat.lt_irrefl _ (h.await_lt _ hm)
  refine ⟨hlt, ?_, ?_, ?_, ?_, ?_⟩
  · simp [h.invoked_eq, List.range_succ]
  · refine List.nodup_append.mpr ⟨h.nodup, List.nodup_singleton _, ?_⟩
    intro a ha hb
    rw [List.mem_singleton] at hb
    exact hnot (hb ▸ ha)
  · intro c hc
    simp only [List.mem_append, List.mem_singleton] at hc
    rcases hc with hc | hc
    · exact Nat.lt_succ_of_lt (h.await_lt c hc)
    · simp [hc]
  · exact Nat.le_succ_of_le h.len_le
  · intro j
    simp only [List.mem_append, List.mem_singleton, not_or]
    rw [h.slot j]
    by_cases hj : j < s.i
    · have : j ≠ s.i := Nat.ne_of_lt hj
      simp [hj, this, Nat.lt_succ_of_lt hj]
    · by_cases hji : j = s.i
      · simp [hji]
      · have : ¬ j < s.i + 1 := by omega
        simp [hj, this]

theorem runInv_threw {α : Type} {taskFns : List (TaskOutcome α)} {s : RunState α} {e : JsError}
    (h : RunInv taskFns s) (hlt : s.i < taskFns.length)
    (ht : taskFns.getD s.i .stalled = .threw e) :
    RunInv taskFns
      { s with i := s.i + 1, invoked := s.invoked ++ [s.i],
               results := arraySet s.results s.i none } := by
  have hnot : s.i ∉ s.awaiting := fun hm => Nat.lt_irrefl _ (h.await_lt _ hm)
  refine ⟨hlt, ?_, h.nodup, ?_, ?_, ?_⟩
  · simp [h.invoked_eq, List.range_succ]
  · intro c hc
    exact Nat.lt_succ_of_lt (h.await_lt c hc)
  · simp only [length_arraySet]
    have := h.len_le
    omega
  · intro j
    simp only [getD_arraySet]
    by_cases hji : j = s.i
    · subst hji
      rw [ht]
      simp [hnot, settle, awaitRace]
    · rw [h.slot j]
      by_cases hj : j < s.i
      · simp [hji, hj, Nat.lt_succ_of_lt hj]
      · have : ¬ j < s.i + 1 := by omega
        simp [hji, hj, this]

theorem runInv_settled {α : Type} (taskFns : List (TaskOutcome α)) {s : RunState α} {c : Nat}
    (h : RunInv taskFns s) (hc : c ∈ s.awaiting) :
    RunInv taskFns
      { s with awaiting := s.awaiting.erase c,
               results := arraySet s.results c (settle (taskFns.getD c .stalled)) } := by
  have hci : c < s.i := h.await_lt c hc
  refine ⟨h.i_le, h.invoked_eq, h.nodup.erase c, ?_, ?_, ?_⟩
  · intro d hd
    exact h.await_lt d (List.mem_of_mem_erase hd)
  · simp only [length_arraySet]
    have := h.len_le
    omega
  · intro j
    simp only [getD_arraySet, h.nodup.mem_erase_iff]
    by_cases hjc : j = c
    · subst hjc
      simp [hci]
    · rw [h.slot j]
      simp [hjc]

theorem run_spec {α : Type} (taskFns : List (TaskOutcome α)) :
    ∀ (fuel : Nat) (s : RunState α), RunInv taskFns s → taskFns.length - s.i < fuel →
      RunInv taskFns (run taskFns fuel s) ∧
        (((run taskFns fuel s).awaiting = s.awaiting ∧ (run taskFns fuel s).i = taskFns.length) ∨
          (∃ c, (run taskFns fuel s).awaiting = s.awaiting ++ [c] ∧
            s.i < (run taskFns fuel s).i)) := by
  intro fuel
  induction fuel with
  | zero =>
    intro s _ hf
    omega
  | succ fuel ih =>
    intro s h hf
    unfold run
    by_cases hlt : s.i < taskFns.length
    · rw [if_pos hlt]
      simp only
      cases ht : taskFns.getD s.i .stalled with
      | threw e =>
        simp only
        have hinv := runInv_threw h hlt ht
        obtain ⟨h1, h2⟩ := ih _ hinv (by simp only; omega)
        refine ⟨h1, ?_⟩
        rcases h2 with ⟨ha, hi⟩ | ⟨c, ha, hi⟩
        · exact Or.inl ⟨ha, hi⟩
        · refine Or.inr ⟨c, ha, ?_⟩
          simp only at hi
          omega
      | resolved v =>
        exact ⟨runInv_await h hlt, Or.inr ⟨s.i, rfl, Nat.lt_succ_self _⟩⟩
      | rejected e => exact ⟨runInv_await h hlt, Or.inr ⟨s.i, rfl, Nat.lt_succ_self _⟩⟩
      | stalled => exact ⟨runInv_await h hlt, Or.inr ⟨s.i, rfl, Nat.lt_succ_self _⟩⟩
    · rw [if_neg hlt]
      refine ⟨h, Or.inl ⟨rfl, ?_⟩⟩
      have := h.i_le
      omega

theorem run_pendingWork {α : Type} (taskFns : List (TaskOutcome α)) (fuel : Nat)
    (s : RunState α) (h : RunInv taskFns s) (hf : taskFns.length - s.i < fuel) :
    pendingWork taskFns (run taskFns fuel s) ≤ pendingWork taskFns s ∧
      ((run taskFns fuel s).awaiting = [] → (run taskFns fuel s).i = taskFns.length) := by
  obtain ⟨h1, h2⟩ := run_spec taskFns fuel s h hf
  unfold pendingWork
  rcases h2 with ⟨ha, hi⟩ | ⟨c, ha, hi⟩
  · rw [ha, hi]
    exact ⟨by omega, fun _ => rfl⟩
  · rw [ha]
    have := h1.i_le
    refine ⟨by simp only [List.length_append, List.length_singleton]; omega, ?_⟩
    intro hnil
    simp at hnil

theorem complete_spec {α : Type} (taskFns : List (TaskOutcome α)) (k : Nat) (s : RunState α)
    (h : RunInv taskFns s) (hne : s.awaiting ≠ []) :
    RunInv taskFns (complete taskFns k s) ∧
      pendingWork taskFns (complete taskFns k s) < pendingWork taskFns s ∧
      ((complete taskFns k s).awaiting = [] → (complete taskFns k s).i = taskFns.length) := by
  have hpos : 0 < s.awaiting.length := List.length_pos.mpr hne
  have hk : k % s.awaiting.length < s.awaiting.length := Nat.mod_lt _ hpos
  unfold complete
  rw [List.getElem?_eq_getElem hk]
  simp only
  have hc : s.awaiting[k % s.awaiting.length] ∈ s.awaiting := List.getElem_mem hk
  have hinv := runInv_settled taskFns h hc
  have hrun := run_spec taskFns (taskFns.length + 1) _ hinv (by omega)
  have hwork := run_pendingWork taskFns (taskFns.length + 1) _ hinv (by omega)
  refine ⟨hrun.1, ?_, hwork.2⟩
  refine Nat.lt_of_le_of_lt hwork.1 ?_
  unfold pendingWork
  simp only [List.length_erase_of_mem hc]
  omega

theorem complete_counter_le {α : Type} (taskFns : List (TaskOutcome α)) (k : Nat)
    (s : RunState α) (h : RunInv taskFns s) (hne : s.awaiting ≠ []) :
    s.i ≤ (complete taskFns k s).i ∧
      (complete taskFns k s).awaiting.length ≤ s.awaiting.length := by
  have hpos : 0 < s.awaiting.length := List.length_pos.mpr hne
  have hk : k % s.awaiting.length < s.awaiting.length := Nat.mod_lt _ hpos
  unfold complete
  rw [List.getElem?_eq_getElem hk]
  simp only
  have hc : s.awaiting[k % s.awaiting.length] ∈ s.awaiting := List.getElem_mem hk
  have hinv := runInv_settled taskFns h hc
  obtain ⟨h1, h2⟩ := run_spec taskFns (taskFns.length + 1) _ hinv (by omega)
  have hlen := List.length_erase_of_mem hc
  rcases h2 with ⟨ha, hi⟩ | ⟨c, ha, hi⟩
  · rw [ha, hi]
    simp only [hlen]
    exact ⟨h.i_le, by omega⟩
  · rw [ha]
    simp only [List.length_append, List.length_singleton, hlen]
    simp only at hi
    exact ⟨by omega, by omega⟩

theorem startWorkers_spec {α : Type} (taskFns : List (TaskOutcome α)) (k : Nat) :
    RunInv taskFns ((run taskFns (taskFns.length + 1))^[k]
        { i := 0, results := [], invoked := [], awaiting := [] }) ∧
      pendingWork taskFns ((run taskFns (taskFns.length + 1))^[k]
        { i := 0, results := [], invoked := [], awaiting := [] }) ≤ taskFns.length ∧
      (0 < k → ((run taskFns (taskFns.length + 1))^[k]
          { i := 0, results := [], invoked := [], awaiting := [] }).awaiting = [] →
        ((run taskFns (taskFns.length + 1))^[k]
          { i := 0, results := [], invoked := [], awaiting := [] }).i = taskFns.length) := by
  induction k with
  | zero =>
    refine ⟨⟨Nat.zero_le _, rfl, List.nodup_nil, ?_, Nat.le_refl _, ?_⟩, ?_, ?_⟩
    · intro c hc
      cases hc
    · intro j
      simp
    · simp [pendingWork]
    · intro h
      omega
  | succ k ih =>
    rw [Function.iterate_succ_apply']
    obtain ⟨hinv, hwork, _⟩ := ih
    have hrun := run_spec taskFns (taskFns.length + 1) _ hinv (by omega)
    have hw := run_pendingWork taskFns (taskFns.length + 1) _ hinv (by omega)
    exact ⟨hrun.1, Nat.le_trans hw.1 hwork, fun _ => hw.2⟩

theorem drain_spec {α : Type} (taskFns : List (TaskOutcome α)) :
    ∀ (fuel : Nat) (sched : List Nat) (s : RunState α), RunInv taskFns s →
      (s.awaiting = [] → s.i = taskFns.length) → pendingWork taskFns s ≤ fuel →
      RunInv taskFns (drain taskFns fuel sched s) ∧
        (drain taskFns fuel sched s).awaiting = [] ∧
        (drain taskFns fuel sched s).i = taskFns.length := by
  intro fuel
  induction fuel with
  | zero =>
    intro sched s h hd hw
    have hnil : s.awaiting = [] := by
      unfold pendingWork at hw
      exact List.length_eq_zero.mp (by omega)
    exact ⟨h, hnil, hd hnil⟩
  | succ fuel ih =>
    intro sched s h hd hw
    unfold drain
    by_cases hnil : s.awaiting = []
    · rw [if_pos (by simp [hnil])]
      exact ⟨h, hnil, hd hnil⟩
    · rw [if_neg (by simpa using hnil)]
      obtain ⟨h1, h2, h3⟩ := complete_spec taskFns (sched.headD 0) s h hnil
      exact ih _ _ h1 h3 (by omega)

theorem results_of_done {α : Type} {taskFns : List (TaskOutcome α)} {s : RunState α}
    (h : RunInv taskFns s) (hnil : s.awaiting = []) (hi : s.i = taskFns.length) :
    s.results = taskFns.map (fun t => Slot.filled (settle t)) ∧
      s.invoked = List.range taskFns.length := by
  refine ⟨?_, by rw [h.invoked_eq, hi]⟩
  have hslot : ∀ j, j < taskFns.length →
      s.results.getD j .hole = .filled (settle (taskFns.getD j .stalled)) := by
    intro j hj
    rw [h.slot j]
    simp [hnil, hi, hj]
  have hlen : s.results.length = taskFns.length := by
    have hle := h.len_le
    rw [hi] at hle
    by_contra hne
    have hlt : s.results.length < taskFns.length := by omega
    have := hslot _ hlt
    rw [List.getD_eq_default _ _ (Nat.le_refl _)] at this
    cases this
  apply List.ext_getElem (by simp [hlen])
  intro j h1 h2
  have hj : j < taskFns.length := by omega
  have := hslot j hj
  rw [List.getD_eq_getElem _ _ h1, List.getD_eq_getElem _ _ hj] at this
  simp [this]

/-- With a positive limit, or with no task at all, the runner ends with no worker
suspended, every task called once in index order, and every slot holding the settled
value of its own task. -/
theorem runWorkers_spec {α : Type} (taskFns : List (TaskOutcome α)) (limit : Nat)
    (sched : List Nat) (hl : 0 < limit ∨ taskFns = []) :
    (runWorkers taskFns limit sched).awaiting = [] ∧
      (runWorkers taskFns limit sched).results = taskFns.map (fun t => Slot.filled (settle t)) ∧
      (runWorkers taskFns limit sched).invoked = List.range taskFns.length := by
  obtain ⟨hinv, hwork, hdone⟩ := startWorkers_spec taskFns (min limit taskFns.length)
  have hd : (startWorkers taskFns limit).awaiting = [] →
      (startWorkers taskFns limit).i = taskFns.length := by
    intro hnil
    by_cases hk : 0 < min limit taskFns.length
    · exact hdone hk hnil
    · have hlen : taskFns.length = 0 := by
        rcases hl with hl | hl
        · omega
        · simp [hl]
      have := hinv.i_le
      unfold startWorkers
      omega
  obtain ⟨h1, h2, h3⟩ := drain_spec taskFns taskFns.length sched _ hinv hd hwork
  exact ⟨h2, results_of_done h1 h2 h3⟩

theorem runWithConcurrencyLimit_eq {α : Type} (taskFns : List (TaskOutcome α)) (limit : Nat)
    (sched : List Nat) (hl : 0 < limit ∨ taskFns = []) :
    _runWithConcurrencyLimit taskFns limit sched
      = some (taskFns.map (fun t => Slot.filled (settle t))) := by
  obtain ⟨h1, h2, _⟩ := runWorkers_spec taskFns limit sched hl
  unfold _runWithConcurrencyLimit
  simp [h1, h2]

/-- C2, as stated, fails: with the limit 0, which is at most the number of tasks, no
worker is created, no task is called and the results array is empty, although there
is one task. -/
theorem runWithConcurrencyLimit_zero_limit :
    0 ≤ [TaskOutcome.resolved (some 1)].length ∧
      _runWithConcurrencyLimit [TaskOutcome.resolved (some 1)] 0 [] = some [] ∧
      (runWorkers [TaskOutcome.resolved (some 1)] 0 []).invoked = [] := by
  decide

/-- C2 (amended): for every list of N task functions and every positive concurrency
limit L with L ≤ N, whatever order the tasks complete in,
`_runWithConcurrencyLimit` calls each task exactly once (N calls in total, in index
order) and returns a results array of length exactly N whose i-th entry is the
settled outcome of the i-th task. -/
theorem runWithConcurrencyLimit_positional {α : Type}
    (taskFns : List (TaskOutcome α)) (limit : Nat) (sched : List Nat)
    (hpos : 0 < limit) (_hle : limit ≤ taskFns.length) :
    (runWorkers taskFns limit sched).invoked.length = taskFns.length ∧
      (∀ i, i < taskFns.length → (runWorkers taskFns limit sched).invoked.count i = 1) ∧
      ∃ results, _runWithConcurrencyLimit taskFns limit sched = some results ∧
        results.length = taskFns.length ∧
        ∀ (i : Nat) (t : TaskOutcome α), taskFns[i]? = some t → results[i]? = some (Slot.filled (settle t)) := by
  obtain ⟨_, _, hinv⟩ := runWorkers_spec taskFns limit sched (Or.inl hpos)
  refine ⟨by simp [hinv], ?_, _, runWithConcurrencyLimit_eq taskFns limit sched (Or.inl hpos),
    by simp, ?_⟩
  · intro i hi
    rw [hinv]
    exact List.count_eq_one_of_mem (List.nodup_range _) (List.mem_range.mpr hi)
  · intro i t ht
    simp [List.getElem?_map, ht]

theorem runWithConcurrencyLimit_positional_witness :
    (runWorkers sampleTasks 2 [1, 1, 0, 5]).invoked.length = sampleTasks.length ∧
      (∀ i, i < sampleTasks.length → (runWorkers sampleTasks 2 [1, 1, 0, 5]).invoked.count i = 1) ∧
      ∃ results, _runWithConcurrencyLimit sampleTasks 2 [1, 1, 0, 5] = some results ∧
        results.length = sampleTasks.length ∧
        ∀ (i : Nat) (t : TaskOutcome Nat), sampleTasks[i]? = some t → results[i]? = some (Slot.filled (settle t)) :=
  runWithConcurrencyLimit_positional sampleTasks 2 [1, 1, 0, 5] (by decide) (by decide)

/-- C3: for every task list and every positive concurrency limit, whatever order the
tasks complete in, `_runWithConcurrencyLimit` returns a results array (it never
fails as a whole, nor stays pending) of the length of the task list; a task that
throws, rejects or exceeds the timeout yields `null` at its own position, and every
other position holds exactly the value its own task resolved with. -/
theorem runWithConcurrencyLimit_isolates_failures {α : Type}
    (taskFns : List (TaskOutcome α)) (limit : Nat) (sched : List Nat) (hpos : 0 < limit) :
    ∃ results, _runWithConcurrencyLimit taskFns limit sched = some results ∧
      results.length = taskFns.length ∧
      ∀ (i : Nat) (t : TaskOutcome α), taskFns[i]? = some t →
        (∀ v, t = TaskOutcome.resolved v → results[i]? = some (Slot.filled v)) ∧
        (∀ e, t = TaskOutcome.threw e → results[i]? = some (Slot.filled none)) ∧
        (∀ e, t = TaskOutcome.rejected e → results[i]? = some (Slot.filled none)) ∧
        (t = TaskOutcome.stalled → results[i]? = some (Slot.filled none)) := by
  refine ⟨_, runWithConcurrencyLimit_eq taskFns limit sched (Or.inl hpos), by simp, ?_⟩
  intro i t ht
  refine ⟨?_, ?_, ?_, ?_⟩
  · intro v hv
    simp [List.getElem?_map, ht, hv, settle, awaitRace]
  · intro e he
    simp [List.getElem?_map, ht, he, settle, awaitRace]
  · intro e he
    simp [List.getElem?_map, ht, he, settle, awaitRace]
  · intro he
    simp [List.getElem?_map, ht, he, settle, awaitRace]

theorem runWithConcurrencyLimit_isolates_failures_witness :
    ∃ results, _runWithConcurrencyLimit sampleTasks 9 [4, 0, 2] = some results ∧
      results.length = sampleTasks.length ∧
      ∀ (i : Nat) (t : TaskOutcome Nat), sampleTasks[i]? = some t →
        (∀ v, t = TaskOutcome.resolved v → results[i]? = some (Slot.filled v)) ∧
        (∀ e, t = TaskOutcome.threw e → results[i]? = some (Slot.filled none)) ∧
        (∀ e, t = TaskOutcome.rejected e → results[i]? = some (Slot.filled none)) ∧
        (t = TaskOutcome.stalled → results[i]? = some (Slot.filled none)) :=
  runWithConcurrencyLimit_isolates_failures sampleTasks 9 [4, 0, 2] (by decide)

/-! ## Device discovery -/

theorem pushReader_foldl_fst (env : Env) (portInfo : Endpoint) (readers : List Reader) :
    ∀ acc : List Device × Widget,
      (readers.foldl (pushReader env portInfo) acc).1 =
        acc.1 ++ readers.map fun reader =>
          { readerId := reader.readerId
            comPort := reader.comPort
            readerName := none
            host := portInfo.host
            port := portInfo.port
            isRegisteredInSystem := readerInSystem env reader.readerId } := by
  induction readers with
  | nil => simp
  | cons r rest ih =>
    intro acc
    rw [List.foldl_cons, ih]
    simp [pushReader, _validateReaderInSystem]

theorem pushPort_foldl_fst (env : Env) (ports : List Nat) :
    ∀ acc : List Device × Widget,
      ((ports.map fun p => (⟨LOCALHOST, p⟩ : Endpoint)).foldl (pushPort env) acc).1 =
        acc.1 ++ ports.flatMap (devicesOfPort env) := by
  induction ports with
  | nil => simp
  | cons p rest ih =>
    intro acc
    rw [List.map_cons, List.foldl_cons, ih]
    simp [pushPort, _getReaderList, pushReader_foldl_fst, devicesOfPort, List.flatMap_cons]

theorem validPorts_of_settled (env : Env) (w : Widget) (ports : List Nat) :
    validPortsOf ((outcomesOf (ports.map (discoveryTask env)) w).map
        fun t => Slot.filled (settle t)) =
      (ports.filter (probeSucceeded env)).map fun p => (⟨LOCALHOST, p⟩ : Endpoint) := by
  induction ports with
  | nil => rfl
  | cons p rest ih =>
    unfold validPortsOf outcomesOf at ih ⊢
    simp only [List.map_cons, List.filterMap_cons, List.filter_cons]
    rw [ih]
    unfold discoveryTask probeSucceeded _callDiscoveryAPI
    cases env.discoverStalls p <;> cases discoverReplyOk (env.discover LOCALHOST p) <;>
      simp [settle, awaitRace]

theorem discoverDevicesRun_eq (env : Env) (sched : List Nat) (w : Widget) :
    discoverDevicesRun env sched w =
      some
        (((validPortsOf ((outcomesOf (discoveryTasks env) w).map
            fun t => Slot.filled (settle t))).foldl (pushPort env)
          ([], callEffects (discoveryTasks env)
            (List.range (discoveryTasks env).length) w)).1,
        ((validPortsOf ((outcomesOf (discoveryTasks env) w).map
            fun t => Slot.filled (settle t))).foldl (pushPort env)
          ([], callEffects (discoveryTasks env)
            (List.range (discoveryTasks env).length) w)).2,
        callRunner (outcomesOf (discoveryTasks env) w) CONCURRENCY_LIMIT sched) := by
  have hspec := runWorkers_spec (outcomesOf (discoveryTasks env) w) CONCURRENCY_LIMIT sched
    (Or.inl (by decide))
  have hret := runWithConcurrencyLimit_eq (outcomesOf (discoveryTasks env) w)
    CONCURRENCY_LIMIT sched (Or.inl (by decide))
  have hlen : (outcomesOf (discoveryTasks env) w).length = (discoveryTasks env).length := by
    simp [outcomesOf]
  unfold discoverDevicesRun
  simp only [callRunner, hret, hspec.2.2, hlen]

theorem discoverDevices_fst (env : Env) (sched : List Nat) (w : Widget) :
    (discoverDevices env sched w).map Prod.fst = some (discoveredDevices env) := by
  unfold discoverDevices
  rw [discoverDevicesRun_eq]
  simp only [Option.map_some', discoveryTasks]
  rw [validPorts_of_settled, pushPort_foldl_fst]
  simp [discoveredDevices]

/-- C10: whatever order the probes complete in, `discoverDevices` returns exactly
the devices enumerated from the ports whose discovery probe succeeded, in ascending
port order and in enumeration order within a port, each carrying that port's host
and port and an `isRegisteredInSystem` flag equal to the registration validator's
answer for its `readerId`; a port whose probe failed or timed out, or whose
enumeration failed, contributes no device. -/
theorem discoverDevices_returns_enumerated (env : Env) (sched : List Nat) (w : Widget) :
    ∃ devices w1, discoverDevices env sched w = some (devices, w1) ∧
      devices = (portRange.filter (probeSucceeded env)).flatMap (devicesOfPort env) ∧
      devices.Pairwise (fun d1 d2 => d1.port ≤ d2.port) ∧
      (∀ d ∈ devices, d.host = LOCALHOST ∧ PORT_RANGE_start ≤ d.port ∧
        d.port ≤ PORT_RANGE_end ∧ probeSucceeded env d.port = true ∧
        d.isRegisteredInSystem = readerInSystem env d.readerId ∧
        ∃ r ∈ readerListOf (env.getDevices LOCALHOST d.port),
          r.readerId = d.readerId ∧ r.comPort = d.comPort) ∧
      (∀ port, probeSucceeded env port = false → ∀ d ∈ devices, d.port ≠ port) ∧
      (∀ port, readerListOf (env.getDevices LOCALHOST port) = [] →
        ∀ d ∈ devices, d.port ≠ port) := by
  have hfst := discoverDevices_fst env sched w
  cases hd : discoverDevices env sched w with
  | none =>
    rw [hd] at hfst
    cases hfst
  | some res =>
    rw [hd] at hfst
    obtain ⟨devices, w1⟩ := res
    simp only [Option.map_some', Option.some.injEq] at hfst
    have hmem : ∀ d ∈ devices, d.host = LOCALHOST ∧ PORT_RANGE_start ≤ d.port ∧
        d.port ≤ PORT_RANGE_end ∧ probeSucceeded env d.port = true ∧
        d.isRegisteredInSystem = readerInSystem env d.readerId ∧
        ∃ r ∈ readerListOf (env.getDevices LOCALHOST d.port),
          r.readerId = d.readerId ∧ r.comPort = d.comPort := by
      intro d hd
      rw [hfst] at hd
      simp only [discoveredDevices, List.mem_flatMap, List.mem_filter, devicesOfPort,
        List.mem_map] at hd
      obtain ⟨p, ⟨hp, hprobe⟩, r, hr, rfl⟩ := hd
      simp only [portRange, List.mem_range'_1, PORT_RANGE_start, PORT_RANGE_end] at hp
      refine ⟨rfl, ?_, ?_, hprobe, rfl, r, hr, rfl, rfl⟩
      · simp only [PORT_RANGE_start]
        omega
      · simp only [PORT_RANGE_end]
        omega
    refine ⟨devices, w1, rfl, hfst, ?_, hmem, ?_, ?_⟩
    · rw [hfst]
      unfold discoveredDevices
      rw [List.pairwise_flatMap]
      constructor
      · intro p _
        simp only [devicesOfPort, List.pairwise_map]
        exact List.pairwise_of_forall fun _ _ => Nat.le_refl _
      · have hsorted : (portRange.filter (probeSucceeded env)).Pairwise (· ≤ ·) :=
          (List.pairwise_le_range' _ _).sublist (List.filter_sublist _)
        refine hsorted.imp ?_
        intro p q hpq x hx y hy
        simp only [devicesOfPort, List.mem_map] at hx hy
        obtain ⟨_, _, rfl⟩ := hx
        obtain ⟨_, _, rfl⟩ := hy
        exact hpq
    · intro port hport d hd hdp
      have := (hmem d hd).2.2.2.1
      rw [hdp, hport] at this
      cases this
    · intro port hport d hd hdp
      obtain ⟨r, hr, _⟩ := (hmem d hd).2.2.2.2.2
      rw [hdp, hport] at hr
      cases hr

/-! ## Registration validator, scan errors and notifications -/

theorem connectToDevice_notifications (env : Env) (device : Device) (w : Widget) :
    ∃ n, (_connectToDevice env device w).notifications = w.notifications ++ [n] := by
  unfold _connectToDevice
  simp only [_showNotification, saveDeviceToStorage_notifications]
  exact ⟨_, rfl⟩

/-- The part of `selectDevice` from the assignment of `connecting` on emits one
notification: the success notice or the connection error. -/
theorem connectAttempt_notifications (env : Env) (device : Device) (w : Widget) :
    ∃ n,
      (match _setDevice env device.host device.port device.comPort
          (setStatus .connecting w) with
      | (.ok _, w1) => closeDeviceModal (_connectToDevice env device w1)
      | (.error error, w1) =>
        _showNotification ("Lỗi kết nối: " ++ error.message) "danger" false
          (setStatus .disconnected w1)).notifications = w.notifications ++ [n] := by
  unfold _setDevice
  cases setDeviceOutcome (env.setDevice device.host device.port device.comPort) with
  | error e => exact ⟨_, rfl⟩
  | ok u =>
    obtain ⟨n, hn⟩ := connectToDevice_notifications env device
      (logRequest (.setDevice device.host device.port device.comPort) (setStatus .connecting w))
    exact ⟨n, hn⟩

/-- C12: for every `readerId`, `_validateReaderInSystem` returns true iff the
registry count query for that identifier succeeds with a count greater than zero;
when the query fails it returns false.  The operation is a total function: it
raises nothing. -/
theorem validateReaderInSystem_iff (env : Env) (readerId : String) (w : Widget) :
    ((_validateReaderInSystem env readerId w).1 = true ↔
        ∃ n, env.searchCount readerId = .ok n ∧ 0 < n) ∧
      (∀ e, env.searchCount readerId = .error e →
        (_validateReaderInSystem env readerId w).1 = false) := by
  unfold _validateReaderInSystem readerInSystem
  cases h : env.searchCount readerId with
  | error e => simp
  | ok n => simp

/-- C13, as stated, fails: a network error (`TypeError`) and a generic error are
both notified with the severity `danger`. -/
theorem handleScanError_network_generic_same_severity :
    (_handleScanError ⟨"TypeError", "Failed to fetch"⟩ (initialWidget none)).notifications.map
        Notification.type = ["danger"] ∧
      (_handleScanError ⟨"Error", "Reader busy"⟩ (initialWidget none)).notifications.map
        Notification.type = ["danger"] := by
  decide

/-- C13 (amended): the scan-error classifier emits one notification; its severity is
`warning` for a timeout (error name `AbortError`) and `danger` both for a network
connectivity failure (error name `TypeError`) and for a generic error, whose
notification carries the error's message.  Two severities, `warning` and `danger`,
are used. -/
theorem handleScanError_severity (e : JsError) (w : Widget) :
    ∃ n, (_handleScanError e w).notifications = w.notifications ++ [n] ∧
      (e.name = "AbortError" → n.type = "warning" ∧ n.message = "Timeout khi lấy thẻ") ∧
      (e.name = "TypeError" → n.type = "danger" ∧ n.message = "Lỗi kết nối mạng") ∧
      (e.name ≠ "AbortError" → e.name ≠ "TypeError" →
        n.type = "danger" ∧ n.message = "Lỗi khi lấy thẻ: " ++ e.message) ∧
      "warning" ≠ "danger" := by
  unfold _handleScanError _showNotification
  by_cases h1 : e.name = "AbortError"
  · refine ⟨_, rfl, ?_, ?_, ?_, by decide⟩
    · intro _
      simp [h1]
    · intro h2
      rw [h1] at h2
      exact absurd h2 (by decide)
    · intro h
      exact absurd h1 h
  · by_cases h2 : e.name = "TypeError"
    · refine ⟨_, rfl, ?_, ?_, ?_, by decide⟩
      · intro h
        exact absurd h h1
      · intro _
        simp [h1, h2]
      · intro _ h
        exact absurd h2 h
    · refine ⟨_, rfl, ?_, ?_, ?_, by decide⟩
      · intro h
        exact absurd h h1
      · intro h
        exact absurd h h2
      · intro _ _
        simp [h1, h2]

/-- C14, as stated, fails: selecting another registered device while connected
emits two notifications, the one of the implicit disconnect and the one of the new
connection. -/
theorem selectDevice_switch_two_notifications :
    connectedWidget.state.isConnected = true ∧
      otherDevice.isRegisteredInSystem = true ∧
      _isCurrentDevice connectedWidget otherDevice = false ∧
      (selectDevice sampleEnv otherDevice connectedWidget).notifications.length
        = connectedWidget.notifications.length + 2 := by
  decide

/-- C14 (amended): from every widget and for every reply of the service,
`disconnectFromReader` and `testDevice` emit exactly one notification, and
`selectDevice` emits exactly one notification, except when it first disconnects the
session from another device (the device is registered, is not the current one and
`isConnected` is true), where it emits exactly two. -/
theorem notifications_per_operation (env : Env) (device : Device) (w : Widget) :
    (∃ n, (disconnectFromReader w).notifications = w.notifications ++ [n]) ∧
      (∃ n, (testDevice env device w).notifications = w.notifications ++ [n]) ∧
      (∃ ns, (selectDevice env device w).notifications = w.notifications ++ ns ∧
        ns.length =
          if device.isRegisteredInSystem = true ∧ _isCurrentDevice w device = false ∧
              w.state.isConnected = true then 2
          else 1) := by
  refine ⟨⟨_, rfl⟩, ?_, ?_⟩
  · unfold testDevice
    cases testDeviceOutcome (env.testDeviceReply device.host device.port device.comPort) <;>
      exact ⟨_, rfl⟩
  · unfold selectDevice
    cases hreg : device.isRegisteredInSystem
    · exact ⟨_, rfl, by simp⟩
    · cases hcur : _isCurrentDevice w device
      · simp only [Bool.not_true, Bool.false_eq_true, if_false]
        cases hc : w.state.isConnected
        · obtain ⟨n, hn⟩ := connectAttempt_notifications env device w
          simp only [Bool.false_eq_true, if_false]
          exact ⟨[n], hn, by simp⟩
        · obtain ⟨n, hn⟩ := connectAttempt_notifications env device (disconnectFromReader w)
          obtain ⟨m, hm⟩ : ∃ m, (disconnectFromReader w).notifications = w.notifications ++ [m] :=
            ⟨_, rfl⟩
          simp only [if_true]
          refine ⟨[m, n], ?_, by simp⟩
          rw [hn, hm]
          simp
      · exact ⟨_, rfl, by simp⟩

/-! ## Frame conditions -/

/-- The reactive state after `getTags` on a connected session: only `isScanning`
is written, and it ends false. -/
theorem getTags_connected_state (env : Env) (w : Widget) (ri : ReaderInfo)
    (hc : w.state.isConnected = true) (hr : w.state.readerInfo = some ri) :
    (getTags env w).2.state = { w.state with isScanning := false } := by
  unfold getTags
  simp only [hc, hr]
  rcases env.read ri.host ri.port with e | ⟨ok, json⟩
  · simp
  · rcases json with e | data
    · simp
    · simp only
      split
      · simp
      · split
        · simp
        · split <;> simp

/-- C15: when the session is not connected (`isConnected` false or `readerInfo`
absent), `getTags` returns `null`, issues no request (so no read request), emits
one warning notification and leaves the reactive state, `isScanning` included, and
the persisted record unchanged. -/
theorem getTags_not_connected (env : Env) (w : Widget)
    (h : w.state.isConnected = false ∨ w.state.readerInfo = none) :
    (getTags env w).1 = none ∧
      (getTags env w).2.requests = w.requests ∧
      (getTags env w).2.notifications =
        w.notifications ++ [⟨"Chưa kết nối với Reader Service", "warning", false⟩] ∧
      (getTags env w).2.state = w.state ∧
      (getTags env w).2.state.isScanning = w.state.isScanning ∧
      (getTags env w).2.storage = w.storage := by
  have hout : getTags env w =
      (none, _showNotification "Chưa kết nối với Reader Service" "warning" false w) := by
    unfold getTags
    split
    · rename_i hc hr
      rcases h with h | h
      · rw [hc] at h
        cases h
      · rw [hr] at h
        cases h
    · rfl
  rw [hout]
  exact ⟨rfl, rfl, rfl, rfl, rfl, rfl⟩

theorem getTags_not_connected_witness :
    (initialWidget none).state.isConnected = false ∧
      (getTags sampleEnv (initialWidget none)).1 = none ∧
      (getTags sampleEnv (initialWidget none)).2.requests = (initialWidget none).requests ∧
      (getTags sampleEnv (initialWidget none)).2.notifications =
        (initialWidget none).notifications ++
          [⟨"Chưa kết nối với Reader Service", "warning", false⟩] ∧
      (getTags sampleEnv (initialWidget none)).2.state = (initialWidget none).state ∧
      (getTags sampleEnv (initialWidget none)).2.state.isScanning
        = (initialWidget none).state.isScanning ∧
      (getTags sampleEnv (initialWidget none)).2.storage = (initialWidget none).storage :=
  ⟨rfl, getTags_not_connected sampleEnv (initialWidget none) (Or.inl rfl)⟩

/-- C16: for every `getTags` call on a connected session and every reply to the
read request (a tag, no tag, several tags, a reported failure, an unreadable body or
a transport error), `isScanning` is false when the call completes, and
`connectionStatus`, `isConnected`, `readerInfo` and the persisted record are the
same as before the call. -/
theorem getTags_connected_frame (env : Env) (w : Widget) (ri : ReaderInfo)
    (hc : w.state.isConnected = true) (hr : w.state.readerInfo = some ri) :
    (getTags env w).2.state.isScanning = false ∧
      (getTags env w).2.state.connectionStatus = w.state.connectionStatus ∧
      (getTags env w).2.state.isConnected = w.state.isConnected ∧
      (getTags env w).2.state.readerInfo = w.state.readerInfo ∧
      (getTags env w).2.storage = w.storage := by
  rw [getTags_connected_state env w ri hc hr]
  exact ⟨rfl, rfl, rfl, rfl, getTags_storage env w⟩

theorem getTags_connected_frame_witness :
    connectedWidget.state.isConnected = true ∧
      (getTags refusingEnv connectedWidget).2.state.isScanning = false ∧
      (getTags refusingEnv connectedWidget).2.state.connectionStatus
        = connectedWidget.state.connectionStatus ∧
      (getTags refusingEnv connectedWidget).2.state.isConnected
        = connectedWidget.state.isConnected ∧
      (getTags refusingEnv connectedWidget).2.state.readerInfo
        = connectedWidget.state.readerInfo ∧
      (getTags refusingEnv connectedWidget).2.storage = connectedWidget.storage :=
  ⟨rfl, getTags_connected_frame refusingEnv connectedWidget
    ⟨"R1", "COM3", "127.0.0.1", 10005, none, some "Gate"⟩ rfl rfl⟩

/-- C17: when a registered device whose `readerId` and `comPort` equal those of the
currently connected device is passed to `selectDevice`, whatever host and port it
carries, `connectionStatus`, `isConnected`, `readerInfo` and the persisted record
are unchanged and no request is issued (so no SetDevice request). -/
theorem selectDevice_current_noop (env : Env) (device : Device) (w : Widget) (ri : ReaderInfo)
    (hreg : device.isRegisteredInSystem = true)
    (hr : w.state.readerInfo = some ri)
    (hid : ri.readerId = device.readerId) (hcom : ri.comPort = device.comPort) :
    (selectDevice env device w).state.connectionStatus = w.state.connectionStatus ∧
      (selectDevice env device w).state.isConnected = w.state.isConnected ∧
      (selectDevice env device w).state.readerInfo = w.state.readerInfo ∧
      (selectDevice env device w).storage = w.storage ∧
      (selectDevice env device w).requests = w.requests := by
  have hcur : _isCurrentDevice w device = true := by
    unfold _isCurrentDevice
    simp [hr, hid, hcom]
  unfold selectDevice
  simp only [hreg, hcur, Bool.not_true, Bool.false_eq_true, if_false, if_true]
  exact ⟨rfl, rfl, rfl, rfl, rfl⟩

theorem selectDevice_current_noop_witness :
    movedDevice.isRegisteredInSystem = true ∧
      movedDevice.host ≠ sampleDevice.host ∧
      (selectDevice refusingEnv movedDevice connectedWidget).state.connectionStatus
        = connectedWidget.state.connectionStatus ∧
      (selectDevice refusingEnv movedDevice connectedWidget).state.isConnected
        = connectedWidget.state.isConnected ∧
      (selectDevice refusingEnv movedDevice connectedWidget).state.readerInfo
        = connectedWidget.state.readerInfo ∧
      (selectDevice refusingEnv movedDevice connectedWidget).storage = connectedWidget.storage ∧
      (selectDevice refusingEnv movedDevice connectedWidget).requests
        = connectedWidget.requests :=
  ⟨rfl, by decide, selectDevice_current_noop refusingEnv movedDevice connectedWidget
    ⟨"R1", "COM3", "127.0.0.1", 10005, none, some "Gate"⟩ rfl rfl rfl rfl⟩

/-- C18: for every device, every widget and every reply to the TestDevice request
(success, reported failure, unreadable body or transport error), `testDevice` leaves
`connectionStatus`, `isConnected`, `readerInfo`, `isScanning` and the persisted
record unchanged, and `testingDevice` is cleared when the call completes. -/
theorem testDevice_frame (env : Env) (device : Device) (w : Widget) :
    (testDevice env device w).state.connectionStatus = w.state.connectionStatus ∧
      (testDevice env device w).state.isConnected = w.state.isConnected ∧
      (testDevice env device w).state.readerInfo = w.state.readerInfo ∧
      (testDevice env device w).state.isScanning = w.state.isScanning ∧
      (testDevice env device w).storage = w.storage ∧
      (testDevice env device w).state.testingDevice = none := by
  obtain ⟨hs, hst⟩ := testDevice_session env device w
  rw [hs]
  exact ⟨rfl, rfl, rfl, rfl, hst, rfl⟩

/-- C20: if the session is connected to a device A and `selectDevice` is called with
a registered device B that differs from A in `readerId` or `comPort`, and the
SetDevice call for B fails (transport error, unreadable body or a body without
success), the session ends with `connectionStatus` `disconnected`, `isConnected`
false, `readerInfo` absent and no persisted record: the connection to A is not
restored. -/
theorem selectDevice_failed_switch_disconnects (env : Env) (device : Device) (w : Widget)
    (current : ReaderInfo) (e : JsError)
    (hc : w.state.isConnected = true)
    (hr : w.state.readerInfo = some current)
    (hdiff : current.readerId ≠ device.readerId ∨ current.comPort ≠ device.comPort)
    (hreg : device.isRegisteredInSystem = true)
    (hfail : setDeviceOutcome (env.setDevice device.host device.port device.comPort)
      = .error e) :
    (selectDevice env device w).state.connectionStatus = .disconnected ∧
      (selectDevice env device w).state.isConnected = false ∧
      (selectDevice env device w).state.readerInfo = none ∧
      (selectDevice env device w).storage = none := by
  have hcur : _isCurrentDevice w device = false := by
    unfold _isCurrentDevice
    rcases hdiff with h | h <;> simp [hr, h]
  unfold selectDevice
  simp only [hreg, hcur, hc, Bool.not_true, Bool.false_eq_true, if_false, if_true, _setDevice,
    hfail]
  simp [disconnectFromReader, setStatus, _removeDeviceFromStorage, logRequest]

theorem selectDevice_failed_switch_disconnects_witness :
    connectedWidget.state.isConnected = true ∧
      connectedWidget.storage ≠ none ∧
      (selectDevice refusingEnv otherDevice connectedWidget).state.connectionStatus
        = .disconnected ∧
      (selectDevice refusingEnv otherDevice connectedWidget).state.isConnected = false ∧
      (selectDevice refusingEnv otherDevice connectedWidget).state.readerInfo = none ∧
      (selectDevice refusingEnv otherDevice connectedWidget).storage = none :=
  ⟨rfl, by decide, selectDevice_failed_switch_disconnects refusingEnv otherDevice connectedWidget
    ⟨"R1", "COM3", "127.0.0.1", 10005, none, some "Gate"⟩ (mkError "Port busy") rfl rfl
    (Or.inl (by decide)) rfl rfl⟩

/-! ## The discovery plan and the device descriptors -/

theorem discoveredDevices_readerName (env : Env) :
    ∀ d ∈ discoveredDevices env, d.readerName = none := by
  intro d hd
  simp only [discoveredDevices, List.mem_flatMap, devicesOfPort, List.mem_map] at hd
  obtain ⟨_, _, _, _, rfl⟩ := hd
  rfl

/-- Whatever the service replies, no device returned by `discoverDevices` carries a
`readerName`. -/
theorem discoverDevices_readerName_absent (env : Env) (sched : List Nat) (w : Widget) :
    ∃ devices w1, discoverDevices env sched w = some (devices, w1) ∧
      ∀ d ∈ devices, d.readerName = none := by
  have hfst := discoverDevices_fst env sched w
  cases hd : discoverDevices env sched w with
  | none =>
    rw [hd] at hfst
    cases hfst
  | some res =>
    rw [hd] at hfst
    obtain ⟨devices, w1⟩ := res
    simp only [Option.map_some', Option.some.injEq] at hfst
    exact ⟨devices, w1, rfl, hfst ▸ discoveredDevices_readerName env⟩

theorem probeSucceeded_sampleEnv (port : Nat) :
    probeSucceeded sampleEnv port = decide (port = 10005) := by
  unfold probeSucceeded discoverReplyOk sampleEnv
  by_cases h : port = 10005
  · subst h
    simp
  · simp [h]

theorem discoveredDevices_sampleEnv :
    discoveredDevices sampleEnv =
      [{ readerId := "R1", comPort := "COM3", readerName := none, host := "127.0.0.1",
         port := 10005, isRegisteredInSystem := true }] := by
  have hfilter : portRange.filter (probeSucceeded sampleEnv) = [10005] := by
    have : probeSucceeded sampleEnv = fun port => decide (port = 10005) :=
      funext probeSucceeded_sampleEnv
    rw [this]
    have hsplit : portRange = List.range' 10000 5 ++ (10005 :: List.range' 10006 995) := by
      rw [← List.range'_succ 10005 995 1, List.range'_append_1]
      rfl
    rw [hsplit, List.filter_append, List.filter_cons]
    have hlow : (List.range' 10000 5).filter (fun port => decide (port = 10005)) = [] := by
      rw [List.filter_eq_nil_iff]
      intro a ha
      rw [List.mem_range'_1] at ha
      simp only [decide_eq_true_eq]
      omega
    have hhigh : (List.range' 10006 995).filter (fun port => decide (port = 10005)) = [] := by
      rw [List.filter_eq_nil_iff]
      intro a ha
      rw [List.mem_range'_1] at ha
      simp only [decide_eq_true_eq]
      omega
    rw [hlow, hhigh]
    rfl
  unfold discoveredDevices
  rw [hfilter]
  decide

/-- C11, on the code: with one service on port 10005 whose enumeration yields the
reader `R1` named `Gate`, the enumerator produces the `readerName` `Gate`, but the
device descriptor returned by `discoverDevices` carries no `readerName`. -/
theorem discoverDevices_drops_readerName :
    (readerListOf (sampleEnv.getDevices LOCALHOST 10005)).map Reader.readerName
        = [some "Gate"] ∧
      (discoverDevices sampleEnv [] (initialWidget none)).map
          (fun r => r.1.map Device.readerName) = some [none] := by
  refine ⟨by decide, ?_⟩
  have hfst := discoverDevices_fst sampleEnv [] (initialWidget none)
  rw [discoveredDevices_sampleEnv] at hfst
  cases hd : discoverDevices sampleEnv [] (initialWidget none) with
  | none =>
    rw [hd] at hfst
    cases hfst
  | some res =>
    rw [hd] at hfst
    simp only [Option.map_some', Option.some.injEq] at hfst
    simp [hfst]

theorem portRange_eq : portRange = List.range' 10000 1001 := rfl

theorem run_suspends {α : Type} (taskFns : List (TaskOutcome α)) (fuel : Nat) (s : RunState α)
    (hlt : s.i < taskFns.length) (hnt : ∀ e, taskFns.getD s.i .stalled ≠ .threw e) :
    run taskFns (fuel + 1) s =
      { s with i := s.i + 1, invoked := s.invoked ++ [s.i], awaiting := s.awaiting ++ [s.i] } := by
  unfold run
  rw [if_pos hlt]
  simp only

/-- With no task that throws synchronously, the first `k` workers are suspended on
the first `k` tasks. -/
theorem startWorkers_suspended {α : Type} (taskFns : List (TaskOutcome α))
    (hnt : ∀ i e, taskFns.getD i .stalled ≠ .threw e) :
    ∀ k, k ≤ taskFns.length →
      (run taskFns (taskFns.length + 1))^[k]
          { i := 0, results := [], invoked := [], awaiting := [] } =
        { i := k, results := [], invoked := List.range k, awaiting := List.range k } := by
  intro k
  induction k with
  | zero =>
    intro _
    rfl
  | succ k ih =>
    intro hk
    rw [Function.iterate_succ_apply', ih (Nat.le_of_succ_le hk),
      run_suspends taskFns taskFns.length ⟨k, [], List.range k, List.range k⟩ hk (hnt k)]
    simp [List.range_succ]

theorem outcomes_never_throw (env : Env) (w : Widget) (i : Nat) (e : JsError) :
    (outcomesOf (discoveryTasks env) w).getD i .stalled ≠ .threw e := by
  unfold outcomesOf discoveryTasks
  by_cases hi : i < ((portRange.map (discoveryTask env)).map fun task => (task w).1).length
  · rw [List.getD_eq_getElem _ _ hi, List.getElem_map, List.getElem_map]
    unfold discoveryTask
    simp only
    split <;> simp
  · rw [List.getD_eq_default _ _ (Nat.le_of_not_lt hi)]
    simp

theorem map_range_getD {β γ : Type} (l : List β) (d : β) (f : β → γ) :
    (List.range l.length).map (fun k => f (l.getD k d)) = l.map f := by
  apply List.ext_getElem (by simp)
  intro j h1 h2
  have hj : j < l.length := by simpa using h1
  simp [List.getElem?_eq_getElem hj]

/-- Calling the discovery tasks of the ports `ports` in the order `invoked` issues
the Discover requests of those ports, at the local address, in that order. -/
theorem callEffects_discovery (env : Env) (ports : List Nat) :
    ∀ (invoked : List Nat) (w : Widget),
      callEffects (ports.map (discoveryTask env)) invoked w =
        { w with requests := w.requests ++
            invoked.filterMap fun k => ports[k]?.map (Request.discover LOCALHOST) } := by
  intro invoked
  induction invoked with
  | nil =>
    intro w
    simp [callEffects]
  | cons k rest ih =>
    intro w
    unfold callEffects at ih ⊢
    rw [List.foldl_cons, ih]
    rw [List.getElem?_map]
    cases hk : ports[k]? with
    | none => simp [List.filterMap_cons, hk]
    | some port => simp [discoveryTask, _callDiscoveryAPI, logRequest, List.filterMap_cons, hk]

theorem callEffects_discovery_all (env : Env) (ports : List Nat) (w : Widget) :
    callEffects (ports.map (discoveryTask env)) (List.range ports.length) w =
      { w with requests := w.requests ++ ports.map (Request.discover LOCALHOST) } := by
  rw [callEffects_discovery]
  have h : (List.range ports.length).filterMap
      (fun k => ports[k]?.map (Request.discover LOCALHOST)) =
      ports.map (Request.discover LOCALHOST) := by
    rw [← map_range_getD ports 0 (Request.discover LOCALHOST), ← List.filterMap_eq_map]
    apply List.filterMap_congr
    intro k hk
    have hlt : k < ports.length := List.mem_range.mp hk
    simp [List.getElem?_eq_getElem hlt]
  rw [h]

theorem pushReader_foldl_requests (env : Env) (portInfo : Endpoint) (readers : List Reader) :
    ∀ acc : List Device × Widget,
      ∃ rest, (readers.foldl (pushReader env portInfo) acc).2.requests
          = acc.2.requests ++ rest ∧
        ∀ r ∈ rest, ∀ host port, r ≠ Request.discover host port := by
  induction readers with
  | nil =>
    intro acc
    exact ⟨[], by simp, by simp⟩
  | cons r rs ih =>
    intro acc
    rw [List.foldl_cons]
    obtain ⟨rest, hrest, hno⟩ := ih (pushReader env portInfo acc r)
    refine ⟨[Request.searchCount r.readerId] ++ rest, ?_, ?_⟩
    · rw [hrest]
      simp [pushReader, _validateReaderInSystem, logRequest]
    · intro q hq host port
      simp only [List.mem_append, List.mem_singleton] at hq
      rcases hq with hq | hq
      · rw [hq]
        simp
      · exact hno q hq host port

theorem pushPort_foldl_requests (env : Env) (validPorts : List Endpoint) :
    ∀ acc : List Device × Widget,
      ∃ rest, (validPorts.foldl (pushPort env) acc).2.requests = acc.2.requests ++ rest ∧
        ∀ r ∈ rest, ∀ host port, r ≠ Request.discover host port := by
  induction validPorts with
  | nil =>
    intro acc
    exact ⟨[], by simp, by simp⟩
  | cons p ps ih =>
    intro acc
    rw [List.foldl_cons]
    obtain ⟨rest, hrest, hno⟩ := ih (pushPort env acc p)
    obtain ⟨rest2, hrest2, hno2⟩ := pushReader_foldl_requests env p
      (readerListOf (env.getDevices p.host p.port))
      (acc.1, logRequest (.getDevices p.host p.port) acc.2)
    refine ⟨[Request.getDevices p.host p.port] ++ rest2 ++ rest, ?_, ?_⟩
    · rw [hrest]
      unfold pushPort _getReaderList
      simp only
      rw [hrest2]
      simp [logRequest]
    · intro q hq host port
      simp only [List.mem_append, List.mem_singleton] at hq
      rcases hq with (hq | hq) | hq
      · rw [hq]
        simp
      · exact hno2 q hq host port
      · exact hno q hq host port

theorem drain_awaiting_le {α : Type} (taskFns : List (TaskOutcome α)) :
    ∀ (n : Nat) (sched : List Nat) (s : RunState α), RunInv taskFns s →
      (drain taskFns n sched s).awaiting.length ≤ s.awaiting.length := by
  intro n
  induction n with
  | zero =>
    intro sched s _
    exact Nat.le_refl _
  | succ n ih =>
    intro sched s h
    unfold drain
    by_cases hnil : s.awaiting = []
    · rw [if_pos (by simp [hnil])]
    · rw [if_neg (by simpa using hnil)]
      obtain ⟨h1, _, _⟩ := complete_spec taskFns (sched.headD 0) s h hnil
      exact Nat.le_trans (ih _ _ h1) (complete_counter_le taskFns _ s h hnil).2

/-- C19: `discoverDevices` builds exactly 1001 probe tasks and calls each once, in
index order; the Discover requests it issues are those of the ports 10000 to 11000
in ascending order, all at the local address `127.0.0.1`, and it issues no other
Discover request; it runs the tasks through the task runner with the concurrency
limit 25: the runner starts 25 workers, suspended on the first 25 probes, and however
the probes complete no more than 25 probes are ever awaited at once. -/
theorem discoverDevices_probe_plan (env : Env) (sched : List Nat) (w : Widget) :
    ∃ devices w1 call rest,
      discoverDevicesRun env sched w = some (devices, w1, call) ∧
        discoverDevices env sched w = some (devices, w1) ∧
        (discoveryTasks env).length = 1001 ∧
        call.final.invoked = List.range 1001 ∧
        w1.requests =
          w.requests ++ (List.range' 10000 1001).map (Request.discover "127.0.0.1") ++ rest ∧
        (∀ r ∈ rest, ∀ host port, r ≠ Request.discover host port) ∧
        call.workers.invoked = List.range 25 ∧
        call.workers.awaiting = List.range 25 ∧
        ∀ n, (drain (outcomesOf (discoveryTasks env) w) n sched call.workers).awaiting.length
          ≤ 25 := by
  have hlen : (discoveryTasks env).length = 1001 := by
    simp [discoveryTasks, portRange_eq]
  have hlen2 : (outcomesOf (discoveryTasks env) w).length = 1001 := by
    simp [outcomesOf, hlen]
  have hspec := runWorkers_spec (outcomesOf (discoveryTasks env) w) CONCURRENCY_LIMIT sched
    (Or.inl (by decide))
  have hstart : startWorkers (outcomesOf (discoveryTasks env) w) CONCURRENCY_LIMIT =
      { i := 25, results := [], invoked := List.range 25, awaiting := List.range 25 } := by
    unfold startWorkers
    rw [hlen2]
    have := startWorkers_suspended (outcomesOf (discoveryTasks env) w)
      (outcomes_never_throw env w) 25 (by rw [hlen2]; decide)
    rw [hlen2] at this
    have hmin : min CONCURRENCY_LIMIT 1001 = 25 := by decide
    rw [hmin, this]
  have hinvStart : RunInv (outcomesOf (discoveryTasks env) w)
      (startWorkers (outcomesOf (discoveryTasks env) w) CONCURRENCY_LIMIT) :=
    (startWorkers_spec (outcomesOf (discoveryTasks env) w) _).1
  obtain ⟨rest, hrest, hno⟩ := pushPort_foldl_requests env
    (validPortsOf ((outcomesOf (discoveryTasks env) w).map fun t => Slot.filled (settle t)))
    ([], callEffects (discoveryTasks env) (List.range (discoveryTasks env).length) w)
  refine ⟨_, _, _, rest, discoverDevicesRun_eq env sched w, ?_, hlen, ?_, ?_, hno, ?_, ?_, ?_⟩
  · unfold discoverDevices
    rw [discoverDevicesRun_eq]
    rfl
  · simp only [callRunner]
    rw [hspec.2.2, hlen2]
  · rw [hrest]
    have heff := callEffects_discovery_all env portRange w
    have hpl : portRange.length = (discoveryTasks env).length := by simp [discoveryTasks]
    rw [hpl] at heff
    unfold discoveryTasks at heff ⊢
    rw [heff]
    rfl
  · simp only [callRunner]
    rw [hstart]
  · simp only [callRunner]
    rw [hstart]
  · intro n
    simp only [callRunner]
    have hle := drain_awaiting_le (outcomesOf (discoveryTasks env) w) n sched _ hinvStart
    rw [hstart] at hle ⊢
    simpa using hle

end RFIDReader
